import Mathlib

/-!
# App Service VNet swift connection (slot) resource and the Redis private endpoint `Put`

A shallow embedding of

* `resource_arm_app_service_virtual_network_swift_connection_slot.go`
  (the create/update, read and delete handlers), and
* `privateendpointconnections/method_put.go` (`Put` and `PutThenPoll`).

Handlers are state-passing functions.  The remote API client is a state machine
over an arbitrary state type, so every possible sequence of remote outcomes is
covered.  Every observable action of a handler (named lock, named unlock, remote
call, `SetId`, `Set`) is appended to a trace carried in the handler state.

Concurrent handler runs are schedules: the events of the runs in the order they
take place, replayed against the named lock registry of the spec.

Go `error` values are modelled by their `Error()` text; `%s` and `%+v` applied to
an error both print that text (the behaviour of package `fmt` for an error that
does not implement `fmt.Formatter`).  `%q` applied to a string and to a
`*azure.ResourceID` are taken as parameters.
-/

namespace Azurerm

/-- A Go `error` value, observed through its `Error()` method. -/
structure GoError where
  Error : String
deriving DecidableEq, Repr

/-- The `*http.Response` of a remote call, reduced to its status code. -/
structure HttpResponse where
  StatusCode : Nat
deriving DecidableEq, Repr

/-- Embedding of `autorest.Response`: an embedded `*http.Response`, `none` for nil. -/
abbrev Response := Option HttpResponse

/-- Embedding of `web.Site`, with the fields the handlers touch. -/
structure Site where
  Response : Response
  ID : Option String
  Name : Option String
deriving DecidableEq, Repr

/-- Embedding of `web.SwiftVirtualNetworkProperties`. -/
structure SwiftVirtualNetworkProperties where
  SubnetResourceID : Option String
deriving DecidableEq, Repr

/-- Embedding of `web.SwiftVirtualNetwork`. -/
structure SwiftVirtualNetwork where
  Response : Response
  SwiftVirtualNetworkProperties : Option SwiftVirtualNetworkProperties
  ID : Option String
deriving DecidableEq, Repr

/-- Embedding of `azure.ResourceID`: the resource group and the `Path` map. -/
structure ResourceID where
  ResourceGroup : String
  Path : List (String × String)
deriving DecidableEq, Repr

/-- Go map indexing `id.Path[key]`: the zero value `""` for an absent key. -/
def ResourceID.path (id : ResourceID) (key : String) : String :=
  match id.Path.lookup key with
  | some v => v
  | none => ""

/-- Embedding of `schema.ResourceData`: the resource ID and the string fields.  A field set
from a `*string` keeps the pointer (`none` for nil). -/
structure ResourceData where
  id : String
  fields : List (String × Option String)
deriving DecidableEq, Repr

/-- The call `d.Id()`. -/
def ResourceData.Id (d : ResourceData) : String := d.id

/-- The call `d.Get(key).(string)`: the zero value `""` when nothing is stored. -/
def ResourceData.Get (d : ResourceData) (key : String) : String :=
  match d.fields.lookup key with
  | some (some v) => v
  | _ => ""

/-- The call `d.SetId(v)`. -/
def ResourceData.SetId (d : ResourceData) (v : String) : ResourceData :=
  { d with id := v }

/-- The call `d.Set(key, v)`. -/
def ResourceData.Set (d : ResourceData) (key : String) (v : Option String) : ResourceData :=
  { d with fields := (key, v) :: d.fields.filter (fun p => p.1 != key) }

/-- The methods of `web.AppsClient` used by the handlers. -/
inductive Method
  | Get
  | GetSlot
  | CreateOrUpdateSwiftVirtualNetworkConnectionSlot
  | GetSwiftVirtualNetworkConnectionSlot
  | DeleteSwiftVirtualNetworkSlot
deriving DecidableEq, Repr

/-- Observable actions of a handler, in program order. -/
inductive Event
  | ByName (name resourceType : String)
  | UnlockByName (name resourceType : String)
  | call (m : Method) (resp : Response) (err : Option GoError)
  | SetId (v : String)
  | Set (key : String) (v : Option String)
deriving DecidableEq, Repr

/-- Remote client as a state machine over the remote state `σ`: each method maps its
arguments and the current remote state to the returned pair and the next remote state. -/
structure AppServicesClient (σ : Type) where
  Get : String → String → σ → (Site × Option GoError) × σ
  GetSlot : String → String → String → σ → (Site × Option GoError) × σ
  CreateOrUpdateSwiftVirtualNetworkConnectionSlot :
    String → String → SwiftVirtualNetwork → String → σ → (SwiftVirtualNetwork × Option GoError) × σ
  GetSwiftVirtualNetworkConnectionSlot :
    String → String → String → σ → (SwiftVirtualNetwork × Option GoError) × σ
  DeleteSwiftVirtualNetworkSlot : String → String → String → σ → (Response × Option GoError) × σ

/-- Code used by the handlers that lives outside the embedded files, taken as parameters:
`azure.ParseAzureResourceID` (returning the pointer and the error), `utils.ResponseWasNotFound`,
the two lock type names of package `network`, and the `%q` formatting of a string and of a
`*azure.ResourceID`. -/
structure Externals where
  ParseAzureResourceID : String → Option ResourceID × Option GoError
  ResponseWasNotFound : Response → Bool
  VirtualNetworkResourceName : String
  SubnetResourceName : String
  quote : String → String
  quoteID : Option ResourceID → String

/-- How a handler invocation ends: it returns an `error` (`none` for nil) or it panics. -/
inductive Outcome
  | returned (err : Option GoError)
  | panicked
deriving DecidableEq, Repr

/-- Handler state: the resource data, the remote state and the trace so far. -/
structure St (σ : Type) where
  d : ResourceData
  remote : σ
  trace : List Event

/-- Append one event to the trace. -/
def St.emit {σ : Type} (s : St σ) (e : Event) : St σ :=
  { s with trace := s.trace ++ [e] }

/-- Record a remote call: its event is appended and the remote state advances. -/
def St.called {σ : Type} (s : St σ) (m : Method) (resp : Response) (err : Option GoError)
    (remote : σ) : St σ :=
  { s with remote := remote, trace := s.trace ++ [Event.call m resp err] }

/-- Perform `d.SetId(v)` and record it. -/
def St.setId {σ : Type} (s : St σ) (v : String) : St σ :=
  { s with d := s.d.SetId v, trace := s.trace ++ [Event.SetId v] }

/-- Perform `d.Set(key, v)` and record it. -/
def St.set {σ : Type} (s : St σ) (key : String) (v : Option String) : St σ :=
  { s with d := s.d.Set key v, trace := s.trace ++ [Event.Set key v] }

/-- The statement pair `locks.ByName(name, ty); defer locks.UnlockByName(name, ty)` followed
by the rest of the function `body`: the deferred unlock runs when the function exits, whether
by return or by panic. -/
def withLock {σ : Type} (name ty : String) (body : St σ → Outcome × St σ) (s : St σ) :
    Outcome × St σ :=
  let r := body (s.emit (Event.ByName name ty))
  (r.1, r.2.emit (Event.UnlockByName name ty))

/-- A returned `fmt.Errorf` error. -/
def errorf (msg : String) : Outcome := Outcome.returned (some ⟨msg⟩)

/-- Embedding of `resourceArmAppServiceVirtualNetworkSwiftConnectionSlotRead`. -/
def resourceArmAppServiceVirtualNetworkSwiftConnectionSlotRead {σ : Type} (x : Externals)
    (client : AppServicesClient σ) (s : St σ) : Outcome × St σ :=
  match x.ParseAzureResourceID s.d.Id with
  | (id, some _) => (errorf ("Error parsing Azure Resource ID " ++ x.quoteID id), s)
  | (none, none) => (Outcome.panicked, s)
  | (some id, none) =>
    let resourceGroup := id.ResourceGroup
    let name := id.path "sites"
    let slotName := id.path "slots"
    let r1 := client.GetSlot resourceGroup name slotName s.remote
    let slot := r1.1.1
    let s1 := s.called Method.GetSlot slot.Response r1.1.2 r1.2
    match r1.1.2 with
    | some err =>
      if x.ResponseWasNotFound slot.Response then
        (Outcome.returned none, s1.setId "")
      else
        (errorf ("Error retrieving existing App Service Slot " ++ x.quote slotName
          ++ " (App Service " ++ x.quote name ++ " / Resource Group " ++ x.quote resourceGroup
          ++ "): " ++ err.Error), s1)
    | none =>
      let r2 := client.Get resourceGroup name s1.remote
      let appService := r2.1.1
      let s2 := s1.called Method.Get appService.Response r2.1.2 r2.2
      match r2.1.2 with
      | some err =>
        if x.ResponseWasNotFound appService.Response then
          (Outcome.returned none, s2.setId "")
        else
          (errorf ("Error retrieving existing App Service " ++ x.quote name
            ++ " (Resource Group " ++ x.quote resourceGroup ++ "): " ++ err.Error), s2)
      | none =>
        let r3 := client.GetSwiftVirtualNetworkConnectionSlot resourceGroup name slotName s2.remote
        let swiftVnet := r3.1.1
        let s3 := s2.called Method.GetSwiftVirtualNetworkConnectionSlot swiftVnet.Response
          r3.1.2 r3.2
        match r3.1.2 with
        | some err =>
          if x.ResponseWasNotFound swiftVnet.Response then
            (Outcome.returned none, s3.setId "")
          else
            (errorf ("Error retrieving App Service Slot VNet association for "
              ++ x.quote slotName ++ " (App Service " ++ x.quote name ++ " / Resource Group "
              ++ x.quote resourceGroup ++ "): " ++ err.Error), s3)
        | none =>
          match swiftVnet.SwiftVirtualNetworkProperties with
          | none =>
            (errorf ("Error retrieving virtual network properties (Slot Name "
              ++ x.quote slotName ++ " / App Service " ++ x.quote name ++ " / Resource Group "
              ++ x.quote resourceGroup ++ "): `properties` was nil"), s3)
          | some props =>
            let subnetID := props.SubnetResourceID
            if subnetID = none ∨ subnetID = some "" then
              (Outcome.returned none, s3.setId "")
            else
              let s4 := s3.set "subnet_id" subnetID
              let s5 := s4.set "app_service_id" appService.ID
              let s6 := s5.set "slot_name" slot.Name
              (Outcome.returned none, s6)

/-- The part of the create/update handler that runs with both locks held (source lines
82 to 113). -/
def createUpdateLocked {σ : Type} (x : Externals) (client : AppServicesClient σ)
    (resourceGroup name slotName virtualNetworkName : String) (s : St σ) : Outcome × St σ :=
  let r1 := client.Get resourceGroup name s.remote
  let appServiceExists := r1.1.1
  let s1 := s.called Method.Get appServiceExists.Response r1.1.2 r1.2
  match r1.1.2 with
  | some err =>
    if x.ResponseWasNotFound appServiceExists.Response then
      (errorf ("Error retrieving existing App Service " ++ x.quote name ++ " (Resource Group "
        ++ x.quote resourceGroup ++ "): App Service not found in resource group"), s1)
    else
      (errorf ("Error retrieving existing App Service " ++ x.quote name ++ " (Resource Group "
        ++ x.quote resourceGroup ++ "): " ++ err.Error), s1)
  | none =>
    let r2 := client.GetSlot resourceGroup name slotName s1.remote
    let slotExists := r2.1.1
    let s2 := s1.called Method.GetSlot slotExists.Response r2.1.2 r2.2
    match r2.1.2 with
    | some err =>
      if x.ResponseWasNotFound slotExists.Response then
        (errorf ("Error retrieving existing App Service Slot " ++ x.quote slotName
          ++ " (App Service " ++ x.quote name ++ " / Resource Group " ++ x.quote resourceGroup
          ++ "): App Service not found in resource group"), s2)
      else
        (errorf ("Error retrieving existing App Service Slot " ++ x.quote slotName
          ++ " (App Service " ++ x.quote name ++ " / Resource Group " ++ x.quote resourceGroup
          ++ "): " ++ err.Error), s2)
    | none =>
      let connectionEnvelope : SwiftVirtualNetwork :=
        { Response := none
          SwiftVirtualNetworkProperties := some { SubnetResourceID := some (s2.d.Get "subnet_id") }
          ID := none }
      let r3 := client.CreateOrUpdateSwiftVirtualNetworkConnectionSlot resourceGroup name
        connectionEnvelope slotName s2.remote
      let s3 := s2.called Method.CreateOrUpdateSwiftVirtualNetworkConnectionSlot r3.1.1.Response
        r3.1.2 r3.2
      match r3.1.2 with
      | some err =>
        (errorf ("Error creating/updating App Service Slot VNet association between "
          ++ x.quote slotName ++ " (App Service " ++ x.quote name ++ " / Resource Group "
          ++ x.quote resourceGroup ++ ") and Virtual Network " ++ x.quote virtualNetworkName
          ++ ": " ++ err.Error), s3)
      | none =>
        let r4 := client.GetSwiftVirtualNetworkConnectionSlot resourceGroup name slotName s3.remote
        let read := r4.1.1
        let s4 := s3.called Method.GetSwiftVirtualNetworkConnectionSlot read.Response r4.1.2 r4.2
        match r4.1.2 with
        | some err =>
          (errorf ("Error retrieving App Service Slot VNet association between "
            ++ x.quote slotName ++ " (App Service " ++ x.quote name ++ " / Resource Group "
            ++ x.quote resourceGroup ++ ") and Virtual Network " ++ x.quote virtualNetworkName
            ++ ": " ++ err.Error), s4)
        | none =>
          match read.ID with
          | none => (Outcome.panicked, s4)
          | some readID =>
            resourceArmAppServiceVirtualNetworkSwiftConnectionSlotRead x client (s4.setId readID)

/-- Embedding of `resourceArmAppServiceVirtualNetworkSwiftConnectionSlotCreateUpdate`. -/
def resourceArmAppServiceVirtualNetworkSwiftConnectionSlotCreateUpdate {σ : Type}
    (x : Externals) (client : AppServicesClient σ) (s : St σ) : Outcome × St σ :=
  match x.ParseAzureResourceID (s.d.Get "app_service_id") with
  | (id, some _) => (errorf ("Error parsing Azure Resource ID " ++ x.quoteID id), s)
  | (oid, none) =>
    match x.ParseAzureResourceID (s.d.Get "subnet_id") with
    | (subnetID, some _) =>
      (errorf ("Error parsing Azure Resource ID " ++ x.quoteID subnetID), s)
    | (osubnetID, none) =>
      match oid, osubnetID with
      | some id, some subnetID =>
        let resourceGroup := id.ResourceGroup
        let name := id.path "sites"
        let subnetName := subnetID.path "subnets"
        let virtualNetworkName := subnetID.path "virtualNetworks"
        let slotName := s.d.Get "slot_name"
        withLock virtualNetworkName x.VirtualNetworkResourceName
          (withLock subnetName x.SubnetResourceName
            (createUpdateLocked x client resourceGroup name slotName virtualNetworkName)) s
      | _, _ => (Outcome.panicked, s)

/-- The part of the delete handler that runs with both locks held (source lines 194 to 215). -/
def deleteLocked {σ : Type} (x : Externals) (client : AppServicesClient σ)
    (resourceGroup name slotName : String) (s : St σ) : Outcome × St σ :=
  let r1 := client.GetSwiftVirtualNetworkConnectionSlot resourceGroup name slotName s.remote
  let read := r1.1.1
  let s1 := s.called Method.GetSwiftVirtualNetworkConnectionSlot read.Response r1.1.2 r1.2
  match r1.1.2 with
  | some err =>
    (errorf ("Error making read request on virtual network properties (Slot Name "
      ++ x.quote slotName ++ " / App Service " ++ x.quote name ++ " / Resource Group "
      ++ x.quote resourceGroup ++ "): " ++ err.Error), s1)
  | none =>
    match read.SwiftVirtualNetworkProperties with
    | none =>
      (errorf ("Error retrieving virtual network properties (Slot Name "
        ++ x.quote slotName ++ " / App Service " ++ x.quote name ++ " / Resource Group "
        ++ x.quote resourceGroup ++ "): `properties` was nil"), s1)
    | some props =>
      let subnet := props.SubnetResourceID
      if subnet = none ∨ subnet = some "" then
        (Outcome.returned none, s1)
      else
        let r2 := client.DeleteSwiftVirtualNetworkSlot resourceGroup name slotName s1.remote
        let resp := r2.1.1
        let s2 := s1.called Method.DeleteSwiftVirtualNetworkSlot resp r2.1.2 r2.2
        match r2.1.2 with
        | some err =>
          if !x.ResponseWasNotFound resp then
            (errorf ("Error deleting virtual network properties (Slot Name "
              ++ x.quote slotName ++ " / App Service " ++ x.quote name ++ " / Resource Group "
              ++ x.quote resourceGroup ++ "): " ++ err.Error), s2)
          else
            (Outcome.returned none, s2)
        | none => (Outcome.returned none, s2)

/-- Embedding of `resourceArmAppServiceVirtualNetworkSwiftConnectionSlotDelete`. -/
def resourceArmAppServiceVirtualNetworkSwiftConnectionSlotDelete {σ : Type}
    (x : Externals) (client : AppServicesClient σ) (s : St σ) : Outcome × St σ :=
  match x.ParseAzureResourceID (s.d.Get "app_service_id") with
  | (id, some _) => (errorf ("Error parsing Azure Resource ID " ++ x.quoteID id), s)
  | (oid, none) =>
    match x.ParseAzureResourceID (s.d.Get "subnet_id") with
    | (subnetID, some _) =>
      (errorf ("Error parsing Azure Resource ID " ++ x.quoteID subnetID), s)
    | (osubnetID, none) =>
      let slotName := s.d.Get "slot_name"
      match oid, osubnetID with
      | some id, some subnetID =>
        let resourceGroup := id.ResourceGroup
        let name := id.path "sites"
        let subnetName := subnetID.path "subnets"
        let virtualNetworkName := subnetID.path "virtualNetworks"
        withLock virtualNetworkName x.VirtualNetworkResourceName
          (withLock subnetName x.SubnetResourceName
            (deleteLocked x client resourceGroup name slotName)) s
      | _, _ => (Outcome.panicked, s)

/-- Start state of a handler invocation: empty trace. -/
def St.init {σ : Type} (d : ResourceData) (remote : σ) : St σ :=
  { d := d, remote := remote, trace := [] }

/-- Lock operations among the events. -/
def Event.isLockOp : Event → Bool
  | Event.ByName _ _ => true
  | Event.UnlockByName _ _ => true
  | _ => false

/-- Remote calls among the events. -/
def Event.isCall : Event → Bool
  | Event.call _ _ _ => true
  | _ => false

/-- The trace `t2` continues `t1` with events `evs`, none of them a lock operation. -/
def Continues (t1 t2 : List Event) : Prop :=
  ∃ evs, t2 = t1 ++ evs ∧ ∀ e ∈ evs, e.isLockOp = false

/-- Trace of a handler run that took both locks: the virtual network lock, the subnet lock,
lock-free events `mid`, then the two unlocks in reverse order. -/
def Bracketed (x : Externals) (subnetID : ResourceID) (t : List Event) : Prop :=
  ∃ mid, (∀ e ∈ mid, e.isLockOp = false) ∧
    t = Event.ByName (subnetID.path "virtualNetworks") x.VirtualNetworkResourceName ::
        Event.ByName (subnetID.path "subnets") x.SubnetResourceName ::
        (mid ++ [Event.UnlockByName (subnetID.path "subnets") x.SubnetResourceName,
                 Event.UnlockByName (subnetID.path "virtualNetworks")
                   x.VirtualNetworkResourceName])

/-- Every named lock taken in the trace is released exactly once, and no prefix of the trace
releases a lock more often than it was taken. -/
def LocksBalanced (t : List Event) : Prop :=
  (∀ name ty, t.count (Event.ByName name ty) = t.count (Event.UnlockByName name ty))
  ∧ ∀ p, p <+: t → ∀ name ty,
      p.count (Event.UnlockByName name ty) ≤ p.count (Event.ByName name ty)

/-- One of the two ID parses of the create/update and delete handlers reports an error. -/
def ParseFails (x : Externals) (d : ResourceData) : Prop :=
  (x.ParseAzureResourceID (d.Get "app_service_id")).2 ≠ none
  ∨ (x.ParseAzureResourceID (d.Get "subnet_id")).2 ≠ none

/-- The lock operations of a run that locks the virtual network and then the subnet named by
the parsed `subnet_id`, and unlocks them in the reverse order. -/
def orderedLockOps (x : Externals) (subnetID : ResourceID) : List Event :=
  [Event.ByName (subnetID.path "virtualNetworks") x.VirtualNetworkResourceName,
   Event.ByName (subnetID.path "subnets") x.SubnetResourceName,
   Event.UnlockByName (subnetID.path "subnets") x.SubnetResourceName,
   Event.UnlockByName (subnetID.path "virtualNetworks") x.VirtualNetworkResourceName]

/-- The remote call at position `pre.length` of `pre ++ e :: post` lies in the critical
section: both locks were taken before it and none was released, both are released after it
and none is taken again. -/
def InsideCriticalSection (x : Externals) (subnetID : ResourceID) (pre post : List Event) :
    Prop :=
  Event.ByName (subnetID.path "virtualNetworks") x.VirtualNetworkResourceName ∈ pre
  ∧ Event.ByName (subnetID.path "subnets") x.SubnetResourceName ∈ pre
  ∧ (∀ name ty, Event.UnlockByName name ty ∉ pre)
  ∧ Event.UnlockByName (subnetID.path "subnets") x.SubnetResourceName ∈ post
  ∧ Event.UnlockByName (subnetID.path "virtualNetworks") x.VirtualNetworkResourceName ∈ post
  ∧ (∀ name ty, Event.ByName name ty ∉ post)

/-! ## The Redis private endpoint connection `Put` operation -/

/-- Embedding of `odata.OData`, reduced to an opaque payload. -/
structure OData where
  payload : String
deriving DecidableEq, Repr

/-- Embedding of `client.Response`: the embedded `*http.Response` and the `*odata.OData`. -/
structure SdkResponse where
  Response : Option HttpResponse
  OData : Option OData
deriving DecidableEq, Repr

/-- Embedding of `client.RequestOptions`. -/
structure RequestOptions where
  ContentType : String
  ExpectedStatusCodes : List Nat
  HttpMethod : String
  Path : String
deriving DecidableEq, Repr

/-- Embedding of `PrivateEndpointConnectionId`, observed through its `ID()` method. -/
structure PrivateEndpointConnectionId where
  ID : String
deriving DecidableEq, Repr

/-- Embedding of `PutOperationResponse`, over the type `π` of pollers. -/
structure PutOperationResponse (π : Type) where
  Poller : π
  HttpResponse : Option HttpResponse
  OData : Option OData
deriving DecidableEq, Repr

/-- The library calls made by `Put` and `PutThenPoll`. -/
inductive SdkCall
  | NewRequest
  | Marshal
  | Execute
  | PollerFromResponse
  | PollUntilDone
deriving DecidableEq, Repr

/-- The SDK base layer used by `Put` and `PutThenPoll`, as a state machine over the state `ω`
of the outside world: `ρ` is the type of requests (`*client.Request`), `π` the type of pollers
(`pollers.Poller`, with its zero value) and `ι` the type of the payload
(`PrivateEndpointConnection`).  `Marshal` returns the request it has filled in. -/
structure SdkClient (ρ π ι ω : Type) where
  NewRequest : RequestOptions → ω → (ρ × Option GoError) × ω
  Marshal : ρ → ι → ω → (ρ × Option GoError) × ω
  Execute : ρ → ω → (Option SdkResponse × Option GoError) × ω
  PollerFromResponse : Option SdkResponse → ω → (π × Option GoError) × ω
  PollUntilDone : π → ω → Option GoError × ω
  zeroPoller : π

/-- State threaded through `Put`: the outside world and the library calls made so far. -/
structure SdkState (ω : Type) where
  world : ω
  calls : List SdkCall

/-- Record a library call and the world it left. -/
def SdkState.step {ω : Type} (s : SdkState ω) (call : SdkCall) (world : ω) : SdkState ω :=
  { world := world, calls := s.calls ++ [call] }

/-- The request options built by `Put`: `http.StatusCreated` is 201, `http.StatusOK` is 200
and `http.MethodPut` is `"PUT"`. -/
def putOptions (id : PrivateEndpointConnectionId) : RequestOptions where
  ContentType := "application/json"
  ExpectedStatusCodes := [201, 200]
  HttpMethod := "PUT"
  Path := id.ID

/-- The zero value of `PutOperationResponse`. -/
def PutOperationResponse.zero {π : Type} (zeroPoller : π) : PutOperationResponse π where
  Poller := zeroPoller
  HttpResponse := none
  OData := none

/-- Embedding of `PrivateEndpointConnectionsClient.Put`, with the named results `result` and
`err` returned as a pair. -/
def Put {ρ π ι ω : Type} (c : SdkClient ρ π ι ω) (id : PrivateEndpointConnectionId)
    (input : ι) (s : SdkState ω) : (PutOperationResponse π × Option GoError) × SdkState ω :=
  let opts := putOptions id
  let result := PutOperationResponse.zero c.zeroPoller
  let r1 := c.NewRequest opts s.world
  let s1 := s.step SdkCall.NewRequest r1.2
  match r1.1.2 with
  | some err => ((result, some err), s1)
  | none =>
    let r2 := c.Marshal r1.1.1 input s1.world
    let s2 := s1.step SdkCall.Marshal r2.2
    match r2.1.2 with
    | some err => ((result, some err), s2)
    | none =>
      let r3 := c.Execute r2.1.1 s2.world
      let s3 := s2.step SdkCall.Execute r3.2
      let resp := r3.1.1
      let result : PutOperationResponse π :=
        match resp with
        | some rp => { result with OData := rp.OData, HttpResponse := rp.Response }
        | none => result
      match r3.1.2 with
      | some err => ((result, some err), s3)
      | none =>
        let r4 := c.PollerFromResponse resp s3.world
        let s4 := s3.step SdkCall.PollerFromResponse r4.2
        (({ result with Poller := r4.1.1 }, r4.1.2), s4)

/-- Embedding of `PrivateEndpointConnectionsClient.PutThenPoll`. -/
def PutThenPoll {ρ π ι ω : Type} (c : SdkClient ρ π ι ω) (id : PrivateEndpointConnectionId)
    (input : ι) (s : SdkState ω) : Option GoError × SdkState ω :=
  let r := Put c id input s
  match r.1.2 with
  | some err => (some ⟨"performing Put: " ++ err.Error⟩, r.2)
  | none =>
    let p := c.PollUntilDone r.1.1.Poller r.2.world
    let s2 := r.2.step SdkCall.PollUntilDone p.2
    match p.1 with
    | some err => (some ⟨"polling after Put: " ++ err.Error⟩, s2)
    | none => (none, s2)

/-- Start state of `Put`: no library call made yet. -/
def SdkState.init {ω : Type} (world : ω) : SdkState ω :=
  { world := world, calls := [] }

/-- The library calls of `Put` in program order, each at the world its predecessor left:
the results of `NewRequest`, `Marshal`, `Execute` and `PollerFromResponse`. -/
structure PutStages (ρ π : Type) where
  newRequest : ρ × Option GoError
  marshal : ρ × Option GoError
  execute : Option SdkResponse × Option GoError
  poller : π × Option GoError

/-- The stages as `Put` runs them. -/
def putStages {ρ π ι ω : Type} (c : SdkClient ρ π ι ω) (id : PrivateEndpointConnectionId)
    (input : ι) (world : ω) : PutStages ρ π :=
  let r1 := c.NewRequest (putOptions id) world
  let r2 := c.Marshal r1.1.1 input r1.2
  let r3 := c.Execute r2.1.1 r2.2
  let r4 := c.PollerFromResponse r3.1.1 r3.2
  { newRequest := r1.1, marshal := r2.1, execute := r3.1, poller := r4.1 }

/-! ## The named lock registry and concurrent handler runs -/

/-- The `LockKey` of the spec: a resource type and a resource name. -/
structure LockKey where
  resourceType : String
  resourceName : String
deriving DecidableEq, Repr

/-- Modelled from the spec: the lock registry behind `locks.ByName` and `locks.UnlockByName`
(package `locks` is not among the sources).  It lists the locks held at a moment, each with
the task that holds it. -/
structure LockRegistry where
  held : List (LockKey × Nat)
deriving DecidableEq, Repr

/-- Modelled from the spec: `Acquire(resourceType, resourceName)`, the missing body of
`locks.ByName`, which "blocks the calling logical task until no other task holds a lock for
the same pair".  The step of `task` is possible only in a registry where no other task holds
`key` (`none` otherwise: the task stays blocked), and the task then holds the key. -/
def LockRegistry.Acquire (reg : LockRegistry) (task : Nat) (key : LockKey) :
    Option LockRegistry :=
  if reg.held.any (fun h => decide (h.1 = key ∧ h.2 ≠ task)) then none
  else some { held := (key, task) :: reg.held }

/-- Modelled from the spec: `Release(token)`, the missing body of `locks.UnlockByName`, which
"releases exactly the lock represented by `token`" and is a no-op without a matching
`Acquire`. -/
def LockRegistry.Release (reg : LockRegistry) (task : Nat) (key : LockKey) : LockRegistry :=
  { held := reg.held.erase (key, task) }

/-- Modelled from the spec: the effect of one handler event of `task` on the registry.
`locks.ByName(name, type)` acquires the key `(type, name)`, `locks.UnlockByName(name, type)`
releases it, every other event leaves the registry alone. -/
def lockStep (reg : LockRegistry) (task : Nat) : Event → Option LockRegistry
  | Event.ByName name ty => reg.Acquire task { resourceType := ty, resourceName := name }
  | Event.UnlockByName name ty =>
    some (reg.Release task { resourceType := ty, resourceName := name })
  | _ => some reg

/-- Modelled from the spec: a run of concurrent tasks, as the sequence of their events in the
order they take place, each with its task.  `runSchedule` replays it against the registry and
yields `none` when an event takes place that its task was blocked on. -/
def runSchedule : LockRegistry → List (Nat × Event) → Option LockRegistry
  | reg, [] => some reg
  | reg, (task, e) :: rest =>
    match lockStep reg task e with
    | none => none
    | some reg2 => runSchedule reg2 rest

/-- A schedule the lock registry admits, started with no lock held. -/
def Admissible (sched : List (Nat × Event)) : Prop :=
  (runSchedule { held := [] } sched).isSome = true

/-- The events of `task` in a schedule, in order. -/
def project (task : Nat) (sched : List (Nat × Event)) : List Event :=
  (sched.filter (fun p => p.1 == task)).map (fun p => p.2)

/-- The schedule `sched` interleaves the run `a` of task `p` with the run `b` of task `q`. -/
def Interleave (p q : Nat) (a b : List Event) (sched : List (Nat × Event)) : Prop :=
  project p sched = a ∧ project q sched = b ∧ ∀ y ∈ sched, y.1 = p ∨ y.1 = q

/-- The run `t` as a schedule of the single task `task`. -/
def tagged (task : Nat) (t : List Event) : List (Nat × Event) :=
  t.map (fun e => (task, e))

/-- The number of times a task holds `key` after the event `e`, when it held it `n` times
before. -/
def heldAfter (key : LockKey) (n : Nat) : Event → Nat
  | Event.ByName name ty =>
    if ({ resourceType := ty, resourceName := name } : LockKey) = key then n + 1 else n
  | Event.UnlockByName name ty =>
    if ({ resourceType := ty, resourceName := name } : LockKey) = key then n - 1 else n
  | _ => n

/-- A task that holds `key` `n` times still holds it before each event of the run `t`. -/
def HoldsThroughout (key : LockKey) : Nat → List Event → Prop
  | _, [] => True
  | n, e :: rest => 1 ≤ n ∧ HoldsThroughout key (heldAfter key n e) rest

/-- A handler run as the lock registry sees it: empty, or one that starts by taking `key` and
holds it before each of its later events. -/
def GuardedBy (key : LockKey) (t : List Event) : Prop :=
  t = [] ∨ ∃ rest, t = Event.ByName key.resourceName key.resourceType :: rest
    ∧ HoldsThroughout key 1 rest

/-- The key of the virtual network lock the handlers take for the parsed `subnet_id`. -/
def vnetKey (x : Externals) (subnetID : ResourceID) : LockKey :=
  { resourceType := x.VirtualNetworkResourceName,
    resourceName := subnetID.path "virtualNetworks" }

/-- The key of the subnet lock the handlers take for the parsed `subnet_id`. -/
def subnetKey (x : Externals) (subnetID : ResourceID) : LockKey :=
  { resourceType := x.SubnetResourceName, resourceName := subnetID.path "subnets" }

/-! ## Statements about the handlers -/

/-- The three lookups of the Read handler for the parsed ID `id`, in the order `GetSlot`,
`Get`, `GetSwiftVirtualNetworkConnectionSlot`, each issued at the remote state its predecessor
left. -/
structure ReadLookups where
  slot : Site × Option GoError
  appService : Site × Option GoError
  swiftVnet : SwiftVirtualNetwork × Option GoError

/-- The lookups as Read issues them. -/
def readLookups {σ : Type} (client : AppServicesClient σ) (id : ResourceID) (remote : σ) :
    ReadLookups :=
  let r1 := client.GetSlot id.ResourceGroup (id.path "sites") (id.path "slots") remote
  let r2 := client.Get id.ResourceGroup (id.path "sites") r1.2
  let r3 := client.GetSwiftVirtualNetworkConnectionSlot id.ResourceGroup (id.path "sites")
    (id.path "slots") r2.2
  { slot := r1.1, appService := r2.1, swiftVnet := r3.1 }

/-- The response of the first lookup that fails, `none` when all three succeed. -/
def ReadLookups.firstFailure (l : ReadLookups) : Option Response :=
  if l.slot.2 ≠ none then some l.slot.1.Response
  else if l.appService.2 ≠ none then some l.appService.1.Response
  else if l.swiftVnet.2 ≠ none then some l.swiftVnet.1.Response
  else none

/-- The remote object is missing: the first lookup that fails does so with a not-found
response, or all three succeed with non-nil properties whose subnet resource ID is nil or
empty. -/
def ReadLookups.Gone (x : Externals) (l : ReadLookups) : Prop :=
  (∃ resp, l.firstFailure = some resp ∧ x.ResponseWasNotFound resp = true)
  ∨ (l.firstFailure = none ∧ ∃ props, l.swiftVnet.1.SwiftVirtualNetworkProperties = some props
      ∧ (props.SubnetResourceID = none ∨ props.SubnetResourceID = some ""))

/-- The lookups fail: the first lookup that fails does so with a response that is not a
not-found, or all three succeed and the properties are nil. -/
def ReadLookups.Failed (x : Externals) (l : ReadLookups) : Prop :=
  (∃ resp, l.firstFailure = some resp ∧ x.ResponseWasNotFound resp = false)
  ∨ (l.firstFailure = none ∧ l.swiftVnet.1.SwiftVirtualNetworkProperties = none)

/-- What the Read handler is said to do with the lookups `l`, on resource data `d`, with
result `out`: a missing object clears the ID, returns nil and sets no field; failed lookups
return an error and leave the ID alone; otherwise the three fields are set from the three
responses, the ID is unchanged and nil is returned. -/
def ReadTreatsMissingAsGone {σ : Type} (x : Externals) (l : ReadLookups) (d : ResourceData)
    (out : Outcome × St σ) : Prop :=
  (l.Gone x →
    out.1 = Outcome.returned none ∧ out.2.d = d.SetId "" ∧ Event.SetId "" ∈ out.2.trace
      ∧ ∀ key v, Event.Set key v ∉ out.2.trace)
  ∧ (l.Failed x →
    (∃ e, out.1 = Outcome.returned (some e)) ∧ out.2.d = d ∧ ∀ v, Event.SetId v ∉ out.2.trace)
  ∧ (¬ l.Gone x → ¬ l.Failed x →
    out.1 = Outcome.returned none
      ∧ (∃ props, l.swiftVnet.1.SwiftVirtualNetworkProperties = some props
          ∧ out.2.d = ((d.Set "subnet_id" props.SubnetResourceID).Set "app_service_id"
              l.appService.1.ID).Set "slot_name" l.slot.1.Name)
      ∧ out.2.d.id = d.id ∧ ∀ v, Event.SetId v ∉ out.2.trace)

/-- The initial read of the delete handler for the parsed `app_service_id`. -/
def deleteRead {σ : Type} (client : AppServicesClient σ) (id : ResourceID) (d : ResourceData)
    (remote : σ) : (SwiftVirtualNetwork × Option GoError) × σ :=
  client.GetSwiftVirtualNetworkConnectionSlot id.ResourceGroup (id.path "sites")
    (d.Get "slot_name") remote

/-- The delete request of the delete handler, issued at the remote state the read left. -/
def deleteRequest {σ : Type} (client : AppServicesClient σ) (id : ResourceID)
    (d : ResourceData) (remote : σ) : (Response × Option GoError) × σ :=
  client.DeleteSwiftVirtualNetworkSlot id.ResourceGroup (id.path "sites") (d.Get "slot_name")
    (deleteRead client id d remote).2

/-- The association read back by the delete handler is already absent: the read succeeded
with non-nil properties whose subnet resource ID is nil or empty. -/
def AssociationAbsent (read : SwiftVirtualNetwork × Option GoError) : Prop :=
  read.2 = none ∧ ∃ props, read.1.SwiftVirtualNetworkProperties = some props
    ∧ (props.SubnetResourceID = none ∨ props.SubnetResourceID = some "")

/-- The delete handler issues its delete request: the read succeeded with non-nil properties
whose subnet resource ID is a non-empty string. -/
def DeleteRequestIssued (read : SwiftVirtualNetwork × Option GoError) : Prop :=
  read.2 = none ∧ ∃ props, read.1.SwiftVirtualNetworkProperties = some props
    ∧ ¬ (props.SubnetResourceID = none ∨ props.SubnetResourceID = some "")

/-! ## Sample inputs

Concrete externals, clients and resource data on which the handlers are evaluated. -/

/-- Lower-case hexadecimal digit. -/
def hexDigit (n : Nat) : Char :=
  if n < 10 then Char.ofNat (48 + n) else Char.ofNat (87 + n)

/-- One character as Go's `%q` writes it inside the quotes: the double quote and the
backslash are escaped, the control characters get their named or `\x` escapes, every other
character stands for itself. -/
def sampleQuoteChar (c : Char) : String :=
  if c = Char.ofNat 34 then "\\\""
  else if c = Char.ofNat 92 then "\\\\"
  else if c = Char.ofNat 7 then "\\a"
  else if c = Char.ofNat 8 then "\\b"
  else if c = Char.ofNat 12 then "\\f"
  else if c = Char.ofNat 10 then "\\n"
  else if c = Char.ofNat 13 then "\\r"
  else if c = Char.ofNat 9 then "\\t"
  else if c = Char.ofNat 11 then "\\v"
  else if c.toNat < 32 ∨ c.toNat = 127 then
    "\\x" ++ String.mk [hexDigit (c.toNat / 16), hexDigit (c.toNat % 16)]
  else String.singleton c

/-- Go's `%q` of a string whose characters are ASCII or printable: the escaped characters
between double quotes. -/
def sampleQuote (s : String) : String :=
  "\"" ++ String.join (s.toList.map sampleQuoteChar) ++ "\""

/-- Sample externals: three resource IDs parse, every other string is rejected with a nil
ID; a response is "not found" when its status code is 404; a nil `*azure.ResourceID` under
`%q` prints as package `fmt` prints a nil pointer under a verb it does not support. -/
def sampleExternals : Externals where
  ParseAzureResourceID := fun s =>
    if s = "/subscriptions/s/resourceGroups/rg/providers/Microsoft.Web/sites/app" then
      (some { ResourceGroup := "rg", Path := [("sites", "app")] }, none)
    else if s = "/subscriptions/s/resourceGroups/rg/providers/Microsoft.Web/sites/app/slots/blue"
    then
      (some { ResourceGroup := "rg", Path := [("sites", "app"), ("slots", "blue")] }, none)
    else if s = "/subscriptions/s/resourceGroups/rg/providers/Microsoft.Network/virtualNetworks/vnet/subnets/sub"
    then
      (some { ResourceGroup := "rg", Path := [("virtualNetworks", "vnet"), ("subnets", "sub")] },
        none)
    else (none, some ⟨"Cannot parse Azure ID"⟩)
  ResponseWasNotFound := fun r => r == some ⟨404⟩
  VirtualNetworkResourceName := "azurerm_virtual_network"
  SubnetResourceName := "azurerm_subnet"
  quote := sampleQuote
  quoteID := fun _ => "%!q(*azure.ResourceID=<nil>)"

/-- The parsed ID of the sample slot. -/
def sampleSlotID : ResourceID where
  ResourceGroup := "rg"
  Path := [("sites", "app"), ("slots", "blue")]

/-- Sample resource data: a configuration whose three fields are set and whose ID is that of
the slot. -/
def sampleData : ResourceData where
  id := "/subscriptions/s/resourceGroups/rg/providers/Microsoft.Web/sites/app/slots/blue"
  fields :=
    [("app_service_id",
        some "/subscriptions/s/resourceGroups/rg/providers/Microsoft.Web/sites/app"),
     ("subnet_id",
        some "/subscriptions/s/resourceGroups/rg/providers/Microsoft.Network/virtualNetworks/vnet/subnets/sub"),
     ("slot_name", some "blue")]

/-- Sample resource data whose ID and `app_service_id` do not parse. -/
def sampleBadData : ResourceData where
  id := "not-an-id"
  fields :=
    [("app_service_id", some "not-an-id"),
     ("subnet_id",
        some "/subscriptions/s/resourceGroups/rg/providers/Microsoft.Network/virtualNetworks/vnet/subnets/sub"),
     ("slot_name", some "blue")]

/-- A site as the sample service returns it. -/
def sampleSite : Site where
  Response := some ⟨200⟩
  ID := some "/subscriptions/s/resourceGroups/rg/providers/Microsoft.Web/sites/app"
  Name := some "app"

/-- An association as the sample service returns it. -/
def sampleSwift : SwiftVirtualNetwork where
  Response := some ⟨200⟩
  SwiftVirtualNetworkProperties := some
    { SubnetResourceID := some "/subscriptions/s/resourceGroups/rg/providers/Microsoft.Network/virtualNetworks/vnet/subnets/sub" }
  ID := some "/subscriptions/s/resourceGroups/rg/providers/Microsoft.Web/sites/app/slots/blue"

/-- Sample client whose every call succeeds; the remote state counts the calls. -/
def sampleClient : AppServicesClient Nat where
  Get := fun _ _ n => ((sampleSite, none), n + 1)
  GetSlot := fun _ _ _ n => ((sampleSite, none), n + 1)
  CreateOrUpdateSwiftVirtualNetworkConnectionSlot := fun _ _ _ _ n => ((sampleSwift, none), n + 1)
  GetSwiftVirtualNetworkConnectionSlot := fun _ _ _ n => ((sampleSwift, none), n + 1)
  DeleteSwiftVirtualNetworkSlot := fun _ _ _ n => ((some ⟨200⟩, none), n + 1)

/-- Sample client whose calls succeed except the delete request, which fails with 404. -/
def sampleClientDeleteNotFound : AppServicesClient Nat where
  Get := fun _ _ n => ((sampleSite, none), n + 1)
  GetSlot := fun _ _ _ n => ((sampleSite, none), n + 1)
  CreateOrUpdateSwiftVirtualNetworkConnectionSlot := fun _ _ _ _ n => ((sampleSwift, none), n + 1)
  GetSwiftVirtualNetworkConnectionSlot := fun _ _ _ n => ((sampleSwift, none), n + 1)
  DeleteSwiftVirtualNetworkSlot := fun _ _ _ n =>
    ((some ⟨404⟩, some ⟨"StatusCode=404: association not found"⟩), n + 1)

/-- Sample client whose `GetSlot` fails with 404. -/
def sampleClientSlotNotFound : AppServicesClient Nat where
  Get := fun _ _ n => ((sampleSite, none), n + 1)
  GetSlot := fun _ _ _ n =>
    (({ Response := some ⟨404⟩, ID := none, Name := none }, some ⟨"StatusCode=404: no such slot"⟩),
      n + 1)
  CreateOrUpdateSwiftVirtualNetworkConnectionSlot := fun _ _ _ _ n => ((sampleSwift, none), n + 1)
  GetSwiftVirtualNetworkConnectionSlot := fun _ _ _ n => ((sampleSwift, none), n + 1)
  DeleteSwiftVirtualNetworkSlot := fun _ _ _ n => ((some ⟨200⟩, none), n + 1)

/-- Sample client whose association has an empty subnet resource ID. -/
def sampleClientEmptySubnet : AppServicesClient Nat where
  Get := fun _ _ n => ((sampleSite, none), n + 1)
  GetSlot := fun _ _ _ n => ((sampleSite, none), n + 1)
  CreateOrUpdateSwiftVirtualNetworkConnectionSlot := fun _ _ _ _ n => ((sampleSwift, none), n + 1)
  GetSwiftVirtualNetworkConnectionSlot := fun _ _ _ n =>
    (({ Response := some ⟨200⟩,
        SwiftVirtualNetworkProperties := some { SubnetResourceID := some "" },
        ID := some "/subscriptions/s/resourceGroups/rg/providers/Microsoft.Web/sites/app/slots/blue" },
      none), n + 1)
  DeleteSwiftVirtualNetworkSlot := fun _ _ _ n => ((some ⟨200⟩, none), n + 1)

/-- Sample SDK layer: requests and pollers are numbers, the payload is a string, the world
counts the calls.  Every call succeeds; the service answers 201 with an OData payload. -/
def sampleSdk : SdkClient Nat Nat String Nat where
  NewRequest := fun _ w => ((1, none), w + 1)
  Marshal := fun r _ w => ((r + 1, none), w + 1)
  Execute := fun _ w => ((some { Response := some ⟨201⟩, OData := some ⟨"ok"⟩ }, none), w + 1)
  PollerFromResponse := fun _ w => ((7, none), w + 1)
  PollUntilDone := fun _ w => (none, w + 1)
  zeroPoller := 0

/-- Sample SDK layer whose `Execute` fails but still returns the response of the service. -/
def sampleSdkExecuteFails : SdkClient Nat Nat String Nat where
  NewRequest := fun _ w => ((1, none), w + 1)
  Marshal := fun r _ w => ((r + 1, none), w + 1)
  Execute := fun _ w =>
    ((some { Response := some ⟨409⟩, OData := some ⟨"conflict"⟩ },
      some ⟨"unexpected status 409"⟩), w + 1)
  PollerFromResponse := fun _ w => ((7, none), w + 1)
  PollUntilDone := fun _ w => (none, w + 1)
  zeroPoller := 0

/-- Sample SDK layer whose `Marshal` fails. -/
def sampleSdkMarshalFails : SdkClient Nat Nat String Nat where
  NewRequest := fun _ w => ((1, none), w + 1)
  Marshal := fun r _ w => ((r, some ⟨"json: unsupported value"⟩), w + 1)
  Execute := fun _ w => ((some { Response := some ⟨201⟩, OData := some ⟨"ok"⟩ }, none), w + 1)
  PollerFromResponse := fun _ w => ((7, none), w + 1)
  PollUntilDone := fun _ w => (none, w + 1)
  zeroPoller := 0

/-- Sample SDK layer whose polling fails. -/
def sampleSdkPollFails : SdkClient Nat Nat String Nat where
  NewRequest := fun _ w => ((1, none), w + 1)
  Marshal := fun r _ w => ((r + 1, none), w + 1)
  Execute := fun _ w => ((some { Response := some ⟨201⟩, OData := some ⟨"ok"⟩ }, none), w + 1)
  PollerFromResponse := fun _ w => ((7, none), w + 1)
  PollUntilDone := fun _ w => (some ⟨"operation Failed"⟩, w + 1)
  zeroPoller := 0

/-- Sample private endpoint connection ID. -/
def samplePutID : PrivateEndpointConnectionId where
  ID := "/subscriptions/s/resourceGroups/rg/providers/Microsoft.Cache/redis/r/privateEndpointConnections/p"

/-- The parsed `subnet_id` of the sample data. -/
def sampleSubnetID : ResourceID where
  ResourceGroup := "rg"
  Path := [("virtualNetworks", "vnet"), ("subnets", "sub")]

/-- Two sample delete runs on the same virtual network, task 1 first and to its end, then
task 0. -/
def sampleSerialSchedule : List (Nat × Event) :=
  [(1, Event.ByName "vnet" "azurerm_virtual_network"),
   (1, Event.ByName "sub" "azurerm_subnet"),
   (1, Event.call Method.GetSwiftVirtualNetworkConnectionSlot (some ⟨200⟩) none),
   (1, Event.call Method.DeleteSwiftVirtualNetworkSlot (some ⟨404⟩)
     (some ⟨"StatusCode=404: association not found"⟩)),
   (1, Event.UnlockByName "sub" "azurerm_subnet"),
   (1, Event.UnlockByName "vnet" "azurerm_virtual_network"),
   (0, Event.ByName "vnet" "azurerm_virtual_network"),
   (0, Event.ByName "sub" "azurerm_subnet"),
   (0, Event.call Method.GetSwiftVirtualNetworkConnectionSlot (some ⟨200⟩) none),
   (0, Event.call Method.DeleteSwiftVirtualNetworkSlot (some ⟨200⟩) none),
   (0, Event.UnlockByName "sub" "azurerm_subnet"),
   (0, Event.UnlockByName "vnet" "azurerm_virtual_network")]

/-- The same two runs with task 1 starting while task 0 is in its critical section. -/
def sampleOverlappingSchedule : List (Nat × Event) :=
  [(0, Event.ByName "vnet" "azurerm_virtual_network"),
   (0, Event.ByName "sub" "azurerm_subnet"),
   (0, Event.call Method.GetSwiftVirtualNetworkConnectionSlot (some ⟨200⟩) none),
   (1, Event.ByName "vnet" "azurerm_virtual_network"),
   (1, Event.ByName "sub" "azurerm_subnet"),
   (1, Event.call Method.GetSwiftVirtualNetworkConnectionSlot (some ⟨200⟩) none),
   (0, Event.call Method.DeleteSwiftVirtualNetworkSlot (some ⟨200⟩) none),
   (0, Event.UnlockByName "sub" "azurerm_subnet"),
   (0, Event.UnlockByName "vnet" "azurerm_virtual_network"),
   (1, Event.call Method.DeleteSwiftVirtualNetworkSlot (some ⟨404⟩)
     (some ⟨"StatusCode=404: association not found"⟩)),
   (1, Event.UnlockByName "sub" "azurerm_subnet"),
   (1, Event.UnlockByName "vnet" "azurerm_virtual_network")]

/-! ## Lemmas on traces -/

theorem Continues.refl (t : List Event) : Continues t t :=
  ⟨[], by simp, by simp⟩

theorem Continues.snoc {t1 t2 : List Event} (h : Continues t1 t2) (e : Event)
    (he : e.isLockOp = false) : Continues t1 (t2 ++ [e]) := by
  obtain ⟨evs, rfl, hall⟩ := h
  refine ⟨evs ++ [e], by simp, ?_⟩
  intro a ha
  rcases List.mem_append.mp ha with h1 | h1
  · exact hall a h1
  · simp at h1; subst h1; exact he

theorem Continues.trans {t1 t2 t3 : List Event} (h : Continues t1 t2) (h2 : Continues t2 t3) :
    Continues t1 t3 := by
  obtain ⟨e1, rfl, hall1⟩ := h
  obtain ⟨e2, rfl, hall2⟩ := h2
  refine ⟨e1 ++ e2, by simp, ?_⟩
  intro a ha
  rcases List.mem_append.mp ha with h1 | h1
  · exact hall1 a h1
  · exact hall2 a h1

theorem read_continues {σ : Type} (x : Externals) (client : AppServicesClient σ) (s : St σ) :
    Continues s.trace
      (resourceArmAppServiceVirtualNetworkSwiftConnectionSlotRead x client s).2.trace := by
  unfold resourceArmAppServiceVirtualNetworkSwiftConnectionSlotRead
  simp only [St.called, St.setId, St.set]
  repeat' split
  all_goals
    dsimp only
    repeat (first | exact Continues.refl _ | refine Continues.snoc ?_ _ (by rfl))

theorem createUpdateLocked_continues {σ : Type} (x : Externals) (client : AppServicesClient σ)
    (resourceGroup name slotName virtualNetworkName : String) (s : St σ) :
    Continues s.trace
      (createUpdateLocked x client resourceGroup name slotName virtualNetworkName s).2.trace := by
  unfold createUpdateLocked
  simp only [St.called]
  repeat' split
  all_goals
    first
    | (refine Continues.trans ?_ (read_continues x client _)
       simp only [St.setId]
       repeat (first | exact Continues.refl _ | refine Continues.snoc ?_ _ (by rfl)))
    | (dsimp only
       repeat (first | exact Continues.refl _ | refine Continues.snoc ?_ _ (by rfl)))

theorem deleteLocked_continues {σ : Type} (x : Externals) (client : AppServicesClient σ)
    (resourceGroup name slotName : String) (s : St σ) :
    Continues s.trace (deleteLocked x client resourceGroup name slotName s).2.trace := by
  unfold deleteLocked
  simp only [St.called]
  repeat' split
  all_goals
    dsimp only
    repeat (first | exact Continues.refl _ | refine Continues.snoc ?_ _ (by rfl))

theorem withLock_withLock_trace {σ : Type} (a ta b tb : String) (body : St σ → Outcome × St σ)
    (hbody : ∀ s, Continues s.trace (body s).2.trace) (d : ResourceData) (remote : σ) :
    ∃ mid, (∀ e ∈ mid, e.isLockOp = false) ∧
      (withLock a ta (withLock b tb body) (St.init d remote)).2.trace
        = Event.ByName a ta :: Event.ByName b tb ::
            (mid ++ [Event.UnlockByName b tb, Event.UnlockByName a ta]) := by
  obtain ⟨evs, h, hall⟩ := hbody (((St.init d remote).emit (Event.ByName a ta)).emit
    (Event.ByName b tb))
  refine ⟨evs, hall, ?_⟩
  simp only [withLock, St.emit, St.init] at h ⊢
  rw [h]
  simp

theorem createUpdate_trace_cases {σ : Type} (x : Externals) (client : AppServicesClient σ)
    (d : ResourceData) (remote : σ) :
    ((resourceArmAppServiceVirtualNetworkSwiftConnectionSlotCreateUpdate x client
        (St.init d remote)).2.trace = []
      ∧ ¬ ∃ id subnetID, x.ParseAzureResourceID (d.Get "app_service_id") = (some id, none)
          ∧ x.ParseAzureResourceID (d.Get "subnet_id") = (some subnetID, none))
    ∨ ∃ id subnetID, x.ParseAzureResourceID (d.Get "app_service_id") = (some id, none)
        ∧ x.ParseAzureResourceID (d.Get "subnet_id") = (some subnetID, none)
        ∧ Bracketed x subnetID
            (resourceArmAppServiceVirtualNetworkSwiftConnectionSlotCreateUpdate x client
              (St.init d remote)).2.trace := by
  unfold resourceArmAppServiceVirtualNetworkSwiftConnectionSlotCreateUpdate
  simp only [St.init]
  split
  · next id e h => left; simp [h]
  · next oid h =>
    split
    · next sid e h2 => left; simp [h2]
    · next osid h2 =>
      split
      · next id sid =>
        right
        refine ⟨id, sid, h, h2, ?_⟩
        exact withLock_withLock_trace _ _ _ _ _
          (createUpdateLocked_continues x client _ _ _ _) d remote
      · next hne =>
        left
        refine ⟨rfl, ?_⟩
        rintro ⟨id, sid, h3, h4⟩
        rw [h3] at h; rw [h4] at h2
        simp only [Prod.mk.injEq, and_true] at h h2
        exact hne id sid h.symm h2.symm

theorem delete_trace_cases {σ : Type} (x : Externals) (client : AppServicesClient σ)
    (d : ResourceData) (remote : σ) :
    ((resourceArmAppServiceVirtualNetworkSwiftConnectionSlotDelete x client
        (St.init d remote)).2.trace = []
      ∧ ¬ ∃ id subnetID, x.ParseAzureResourceID (d.Get "app_service_id") = (some id, none)
          ∧ x.ParseAzureResourceID (d.Get "subnet_id") = (some subnetID, none))
    ∨ ∃ id subnetID, x.ParseAzureResourceID (d.Get "app_service_id") = (some id, none)
        ∧ x.ParseAzureResourceID (d.Get "subnet_id") = (some subnetID, none)
        ∧ Bracketed x subnetID
            (resourceArmAppServiceVirtualNetworkSwiftConnectionSlotDelete x client
              (St.init d remote)).2.trace := by
  unfold resourceArmAppServiceVirtualNetworkSwiftConnectionSlotDelete
  simp only [St.init]
  split
  · next id e h => left; simp [h]
  · next oid h =>
    split
    · next sid e h2 => left; simp [h2]
    · next osid h2 =>
      split
      · next id sid =>
        right
        refine ⟨id, sid, h, h2, ?_⟩
        exact withLock_withLock_trace _ _ _ _ _
          (deleteLocked_continues x client _ _ _) d remote
      · next hne =>
        left
        refine ⟨rfl, ?_⟩
        rintro ⟨id, sid, h3, h4⟩
        rw [h3] at h; rw [h4] at h2
        simp only [Prod.mk.injEq, and_true] at h h2
        exact hne id sid h.symm h2.symm

theorem count_eq_zero_of_lockFree (mid : List Event) (h : ∀ e ∈ mid, e.isLockOp = false)
    (a : Event) (ha : a.isLockOp = true) : mid.count a = 0 := by
  apply List.count_eq_zero_of_not_mem
  intro hm
  rw [h a hm] at ha
  exact Bool.noConfusion ha

theorem prefix_append_cases {α : Type} (p a b : List α) (h : p <+: a ++ b) :
    p <+: a ∨ ∃ q, q <+: b ∧ p = a ++ q := by
  induction a generalizing p with
  | nil => exact Or.inr ⟨p, h, rfl⟩
  | cons y a ih =>
    cases p with
    | nil => exact Or.inl List.nil_prefix
    | cons z p =>
      rw [List.cons_append, List.cons_prefix_cons] at h
      obtain ⟨rfl, h2⟩ := h
      rcases ih p h2 with h3 | ⟨q, hq, rfl⟩
      · exact Or.inl (List.cons_prefix_cons.mpr ⟨rfl, h3⟩)
      · exact Or.inr ⟨q, hq, rfl⟩

theorem bracketed_count_eq (x : Externals) (sid : ResourceID) (t : List Event)
    (h : Bracketed x sid t) (name ty : String) :
    t.count (Event.ByName name ty) = t.count (Event.UnlockByName name ty) := by
  obtain ⟨mid, hmid, rfl⟩ := h
  have h1 := count_eq_zero_of_lockFree mid hmid (Event.ByName name ty) rfl
  have h2 := count_eq_zero_of_lockFree mid hmid (Event.UnlockByName name ty) rfl
  simp only [List.count_cons, List.count_append, List.count_nil, h1, h2, beq_iff_eq]
  simp
  omega

theorem bracketed_prefix_count (x : Externals) (sid : ResourceID) (t : List Event)
    (h : Bracketed x sid t) (p : List Event) (hp : p <+: t) (name ty : String) :
    p.count (Event.UnlockByName name ty) ≤ p.count (Event.ByName name ty) := by
  obtain ⟨mid, hmid, rfl⟩ := h
  have h1 := count_eq_zero_of_lockFree mid hmid (Event.ByName name ty) rfl
  have h2 := count_eq_zero_of_lockFree mid hmid (Event.UnlockByName name ty) rfl
  have hp2 : p <+: (Event.ByName (sid.path "virtualNetworks") x.VirtualNetworkResourceName ::
        Event.ByName (sid.path "subnets") x.SubnetResourceName :: mid)
      ++ [Event.UnlockByName (sid.path "subnets") x.SubnetResourceName,
          Event.UnlockByName (sid.path "virtualNetworks") x.VirtualNetworkResourceName] := by
    simpa using hp
  rcases prefix_append_cases _ _ _ hp2 with h3 | ⟨q, hq, rfl⟩
  · have h4 := h3.sublist.count_le (Event.UnlockByName name ty)
    simp only [List.count_cons, h2, beq_iff_eq] at h4
    simp at h4
    omega
  · cases q with
    | nil =>
      simp only [List.count_cons, List.count_append, List.count_nil, h1, h2, beq_iff_eq]
      simp
    | cons z q =>
      rw [List.cons_prefix_cons] at hq
      obtain ⟨rfl, hq⟩ := hq
      cases q with
      | nil =>
        simp only [List.count_cons, List.count_append, List.count_nil, h1, h2, beq_iff_eq]
        simp
      | cons z2 q =>
        rw [List.cons_prefix_cons] at hq
        obtain ⟨rfl, hq⟩ := hq
        have hq3 : q = [] := List.prefix_nil.mp hq
        subst hq3
        simp only [List.count_cons, List.count_append, List.count_nil, h1, h2, beq_iff_eq]
        simp
        omega

theorem bracketed_lockOps (x : Externals) (sid : ResourceID) (t : List Event)
    (h : Bracketed x sid t) :
    t.filter Event.isLockOp = orderedLockOps x sid := by
  unfold orderedLockOps
  obtain ⟨mid, hmid, rfl⟩ := h
  have hm : mid.filter Event.isLockOp = [] := by
    rw [List.filter_eq_nil_iff]
    intro a ha
    simp [hmid a ha]
  simp [List.filter_cons, List.filter_append, hm, Event.isLockOp]

/-- Position of a remote call in a bracketed trace: strictly inside the two locks. -/
theorem bracketed_call_inside (x : Externals) (sid : ResourceID) (t : List Event)
    (h : Bracketed x sid t) (pre post : List Event) (m : Method) (resp : Response)
    (err : Option GoError) (ht : t = pre ++ Event.call m resp err :: post) :
    InsideCriticalSection x sid pre post := by
  unfold InsideCriticalSection
  obtain ⟨mid, hmid, rfl⟩ := h
  cases pre with
  | nil => simp at ht
  | cons e1 pre =>
    cases pre with
    | nil => simp at ht
    | cons e2 pre =>
      simp only [List.cons_append, List.cons.injEq] at ht
      obtain ⟨rfl, rfl, ht⟩ := ht
      rcases List.append_eq_append_iff.mp ht with ⟨a, h1, h2⟩ | ⟨c, h1, h2⟩
      · -- the call would be one of the two unlocks: impossible
        have hmem : Event.call m resp err ∈
            [Event.UnlockByName (sid.path "subnets") x.SubnetResourceName,
             Event.UnlockByName (sid.path "virtualNetworks") x.VirtualNetworkResourceName] := by
          rw [h2]; simp
        simp at hmem
      · cases c with
        | nil => simp at h2
        | cons c0 c =>
          -- the call lies in `mid`
          simp only [List.cons_append, List.cons.injEq] at h2
          obtain ⟨rfl, rfl⟩ := h2
          subst h1
          have hpre : ∀ e ∈ pre, e.isLockOp = false := fun e he =>
            hmid e (List.mem_append_left _ he)
          have hc : ∀ e ∈ c, e.isLockOp = false := fun e he =>
            hmid e (List.mem_append_right _ (List.mem_cons_of_mem _ he))
          refine ⟨by simp, by simp, ?_, by simp, by simp, ?_⟩
          · intro name ty hmem
            simp only [List.mem_cons, reduceCtorEq, false_or] at hmem
            exact Bool.noConfusion ((hpre _ hmem).symm.trans rfl)
          · intro name ty hmem
            simp only [List.mem_append, List.mem_cons, reduceCtorEq, false_or,
              List.mem_singleton, or_false, List.not_mem_nil] at hmem
            exact Bool.noConfusion ((hc _ hmem).symm.trans rfl)

theorem bracketed_balanced (x : Externals) (sid : ResourceID) (t : List Event)
    (h : Bracketed x sid t) : LocksBalanced t :=
  ⟨bracketed_count_eq x sid t h, fun p hp => bracketed_prefix_count x sid t h p hp⟩

theorem nil_balanced : LocksBalanced [] := by
  refine ⟨fun _ _ => rfl, fun p hp name ty => ?_⟩
  rw [List.prefix_nil.mp hp]
  exact Nat.le_refl _

theorem not_parsed_of_parseFails (x : Externals) (d : ResourceData) (h : ParseFails x d) :
    ¬ ∃ id subnetID, x.ParseAzureResourceID (d.Get "app_service_id") = (some id, none)
        ∧ x.ParseAzureResourceID (d.Get "subnet_id") = (some subnetID, none) := by
  rintro ⟨id, sid, h1, h2⟩
  rcases h with h | h
  · rw [h1] at h; exact h rfl
  · rw [h2] at h; exact h rfl

/-! ## Claims on locking -/

/-- C1. On every exit path of the create/update handler and of the delete handler (normal
return, error return or panic, for every configuration and every behaviour of the remote
client) each lock taken with `locks.ByName(name, type)` is released by exactly one
`locks.UnlockByName(name, type)` before the handler is left, no lock is released that was not
taken, and a run that returns on an ID parse error performs no lock operation at all. -/
theorem C1_locks_released_exactly_once {σ : Type} (x : Externals) (client : AppServicesClient σ)
    (d : ResourceData) (remote : σ) :
    (LocksBalanced (resourceArmAppServiceVirtualNetworkSwiftConnectionSlotCreateUpdate x client
        (St.init d remote)).2.trace
      ∧ (ParseFails x d →
          (resourceArmAppServiceVirtualNetworkSwiftConnectionSlotCreateUpdate x client
            (St.init d remote)).2.trace = []))
    ∧ (LocksBalanced (resourceArmAppServiceVirtualNetworkSwiftConnectionSlotDelete x client
        (St.init d remote)).2.trace
      ∧ (ParseFails x d →
          (resourceArmAppServiceVirtualNetworkSwiftConnectionSlotDelete x client
            (St.init d remote)).2.trace = [])) := by
  refine ⟨⟨?_, ?_⟩, ⟨?_, ?_⟩⟩
  · rcases createUpdate_trace_cases x client d remote with ⟨h, _⟩ | ⟨id, sid, _, _, h⟩
    · rw [h]; exact nil_balanced
    · exact bracketed_balanced x sid _ h
  · intro hf
    rcases createUpdate_trace_cases x client d remote with ⟨h, _⟩ | ⟨id, sid, h1, h2, _⟩
    · exact h
    · exact absurd ⟨id, sid, h1, h2⟩ (not_parsed_of_parseFails x d hf)
  · rcases delete_trace_cases x client d remote with ⟨h, _⟩ | ⟨id, sid, _, _, h⟩
    · rw [h]; exact nil_balanced
    · exact bracketed_balanced x sid _ h
  · intro hf
    rcases delete_trace_cases x client d remote with ⟨h, _⟩ | ⟨id, sid, h1, h2, _⟩
    · exact h
    · exact absurd ⟨id, sid, h1, h2⟩ (not_parsed_of_parseFails x d hf)

/-- C1 on samples: a successful create/update takes and releases both locks once; a delete
whose `app_service_id` does not parse performs no lock operation. -/
theorem C1_locks_released_exactly_once_witness :
    (resourceArmAppServiceVirtualNetworkSwiftConnectionSlotCreateUpdate sampleExternals
        sampleClient (St.init sampleData 0)).2.trace.filter Event.isLockOp
      = [Event.ByName "vnet" "azurerm_virtual_network", Event.ByName "sub" "azurerm_subnet",
         Event.UnlockByName "sub" "azurerm_subnet",
         Event.UnlockByName "vnet" "azurerm_virtual_network"]
    ∧ LocksBalanced (resourceArmAppServiceVirtualNetworkSwiftConnectionSlotCreateUpdate
        sampleExternals sampleClient (St.init sampleData 0)).2.trace
    ∧ (resourceArmAppServiceVirtualNetworkSwiftConnectionSlotDelete sampleExternals sampleClient
        (St.init sampleBadData 0)).2.trace = [] :=
  ⟨by decide,
   (C1_locks_released_exactly_once sampleExternals sampleClient sampleData 0).1.1,
   (C1_locks_released_exactly_once sampleExternals sampleClient sampleBadData 0).2.2
     (Or.inl (by decide))⟩

/-- C3. Both handlers take their two locks in one fixed order: whenever both IDs parse, the
lock operations of the run are, in this order, `ByName(virtualNetworkName,
VirtualNetworkResourceName)`, `ByName(subnetName, SubnetResourceName)`, then the unlock of the
subnet and the unlock of the virtual network, both names read from the parsed `subnet_id`; in
every other run there is no lock operation.  So no run takes the subnet lock before the
virtual network lock. -/
theorem C3_lock_order {σ : Type} (x : Externals) (client : AppServicesClient σ)
    (d : ResourceData) (remote : σ) :
    ((∀ id subnetID, x.ParseAzureResourceID (d.Get "app_service_id") = (some id, none) →
        x.ParseAzureResourceID (d.Get "subnet_id") = (some subnetID, none) →
        (resourceArmAppServiceVirtualNetworkSwiftConnectionSlotCreateUpdate x client
          (St.init d remote)).2.trace.filter Event.isLockOp = orderedLockOps x subnetID
        ∧ (resourceArmAppServiceVirtualNetworkSwiftConnectionSlotDelete x client
          (St.init d remote)).2.trace.filter Event.isLockOp = orderedLockOps x subnetID)
    ∧ ((¬ ∃ id subnetID, x.ParseAzureResourceID (d.Get "app_service_id") = (some id, none)
          ∧ x.ParseAzureResourceID (d.Get "subnet_id") = (some subnetID, none)) →
        (resourceArmAppServiceVirtualNetworkSwiftConnectionSlotCreateUpdate x client
          (St.init d remote)).2.trace.filter Event.isLockOp = []
        ∧ (resourceArmAppServiceVirtualNetworkSwiftConnectionSlotDelete x client
          (St.init d remote)).2.trace.filter Event.isLockOp = [])) := by
  refine ⟨fun id sid h1 h2 => ⟨?_, ?_⟩, fun hn => ⟨?_, ?_⟩⟩
  · rcases createUpdate_trace_cases x client d remote with ⟨_, h⟩ | ⟨id2, sid2, _, h4, h⟩
    · exact absurd ⟨id, sid, h1, h2⟩ h
    · rw [h2] at h4
      simp only [Prod.mk.injEq, Option.some.injEq, and_true] at h4
      subst h4
      exact bracketed_lockOps x sid _ h
  · rcases delete_trace_cases x client d remote with ⟨_, h⟩ | ⟨id2, sid2, _, h4, h⟩
    · exact absurd ⟨id, sid, h1, h2⟩ h
    · rw [h2] at h4
      simp only [Prod.mk.injEq, Option.some.injEq, and_true] at h4
      subst h4
      exact bracketed_lockOps x sid _ h
  · rcases createUpdate_trace_cases x client d remote with ⟨h, _⟩ | ⟨id2, sid2, h3, h4, _⟩
    · rw [h]; rfl
    · exact absurd ⟨id2, sid2, h3, h4⟩ hn
  · rcases delete_trace_cases x client d remote with ⟨h, _⟩ | ⟨id2, sid2, h3, h4, _⟩
    · rw [h]; rfl
    · exact absurd ⟨id2, sid2, h3, h4⟩ hn

/-- C3 on a sample: the lock operations of a delete run, virtual network first. -/
theorem C3_lock_order_witness :
    (resourceArmAppServiceVirtualNetworkSwiftConnectionSlotDelete sampleExternals sampleClient
        (St.init sampleData 0)).2.trace.filter Event.isLockOp
      = [Event.ByName "vnet" "azurerm_virtual_network", Event.ByName "sub" "azurerm_subnet",
         Event.UnlockByName "sub" "azurerm_subnet",
         Event.UnlockByName "vnet" "azurerm_virtual_network"] :=
  ((C3_lock_order sampleExternals sampleClient sampleData 0).1
    { ResourceGroup := "rg", Path := [("sites", "app")] }
    { ResourceGroup := "rg", Path := [("virtualNetworks", "vnet"), ("subnets", "sub")] }
    (by decide) (by decide)).2

/-- C4. In the create/update handler (the calls of the Read handler it ends with included)
and in the delete handler every remote call is issued inside the critical section: at each
position of the trace that holds a client call, both the virtual network lock and the subnet
lock have been taken before it and no lock has been released, and both locks are released
after it. -/
theorem C4_calls_inside_critical_section {σ : Type} (x : Externals)
    (client : AppServicesClient σ) (d : ResourceData) (remote : σ) (t pre post : List Event)
    (m : Method) (resp : Response) (err : Option GoError)
    (hrun : t = (resourceArmAppServiceVirtualNetworkSwiftConnectionSlotCreateUpdate x client
          (St.init d remote)).2.trace
        ∨ t = (resourceArmAppServiceVirtualNetworkSwiftConnectionSlotDelete x client
          (St.init d remote)).2.trace)
    (hpos : t = pre ++ Event.call m resp err :: post) :
    ∃ subnetID, x.ParseAzureResourceID (d.Get "subnet_id") = (some subnetID, none)
      ∧ InsideCriticalSection x subnetID pre post := by
  rcases hrun with hrun | hrun
  · rcases createUpdate_trace_cases x client d remote with ⟨h, _⟩ | ⟨id, sid, _, h2, h⟩
    · rw [← hrun, hpos] at h; simp at h
    · rw [← hrun] at h
      exact ⟨sid, h2, bracketed_call_inside x sid t h pre post m resp err hpos⟩
  · rcases delete_trace_cases x client d remote with ⟨h, _⟩ | ⟨id, sid, _, h2, h⟩
    · rw [← hrun, hpos] at h; simp at h
    · rw [← hrun] at h
      exact ⟨sid, h2, bracketed_call_inside x sid t h pre post m resp err hpos⟩

/-- C4 on a sample: the delete request of a delete run lies between the locks and the
unlocks. -/
theorem C4_calls_inside_critical_section_witness :
    ∃ subnetID, sampleExternals.ParseAzureResourceID (sampleData.Get "subnet_id")
        = (some subnetID, none)
      ∧ InsideCriticalSection sampleExternals subnetID
          [Event.ByName "vnet" "azurerm_virtual_network", Event.ByName "sub" "azurerm_subnet",
           Event.call Method.GetSwiftVirtualNetworkConnectionSlot (some ⟨200⟩) none]
          [Event.UnlockByName "sub" "azurerm_subnet",
           Event.UnlockByName "vnet" "azurerm_virtual_network"] :=
  C4_calls_inside_critical_section sampleExternals sampleClient sampleData 0 _
    [Event.ByName "vnet" "azurerm_virtual_network", Event.ByName "sub" "azurerm_subnet",
     Event.call Method.GetSwiftVirtualNetworkConnectionSlot (some ⟨200⟩) none]
    [Event.UnlockByName "sub" "azurerm_subnet",
     Event.UnlockByName "vnet" "azurerm_virtual_network"]
    Method.DeleteSwiftVirtualNetworkSlot (some ⟨200⟩) none (Or.inr rfl) (by decide)

/-! ## Claims on errors -/

theorem delete_parsed_eq {σ : Type} (x : Externals) (client : AppServicesClient σ)
    (d : ResourceData) (remote : σ) (id sid : ResourceID)
    (h1 : x.ParseAzureResourceID (d.Get "app_service_id") = (some id, none))
    (h2 : x.ParseAzureResourceID (d.Get "subnet_id") = (some sid, none)) :
    resourceArmAppServiceVirtualNetworkSwiftConnectionSlotDelete x client (St.init d remote)
      = ((deleteLocked x client id.ResourceGroup (id.path "sites") (d.Get "slot_name")
            { d := d, remote := remote,
              trace := [Event.ByName (sid.path "virtualNetworks") x.VirtualNetworkResourceName,
                        Event.ByName (sid.path "subnets") x.SubnetResourceName] }).1,
         ((deleteLocked x client id.ResourceGroup (id.path "sites") (d.Get "slot_name")
            { d := d, remote := remote,
              trace := [Event.ByName (sid.path "virtualNetworks") x.VirtualNetworkResourceName,
                        Event.ByName (sid.path "subnets") x.SubnetResourceName] }).2.emit
            (Event.UnlockByName (sid.path "subnets") x.SubnetResourceName)).emit
            (Event.UnlockByName (sid.path "virtualNetworks") x.VirtualNetworkResourceName)) := by
  unfold resourceArmAppServiceVirtualNetworkSwiftConnectionSlotDelete
  simp [St.init, h1, h2, withLock, St.emit]

theorem read_refines {σ : Type} (x : Externals) (client : AppServicesClient σ)
    (d : ResourceData) (remote : σ) (id : ResourceID)
    (hparse : x.ParseAzureResourceID d.Id = (some id, none)) :
    ReadTreatsMissingAsGone x (readLookups client id remote) d
      (resourceArmAppServiceVirtualNetworkSwiftConnectionSlotRead x client
        (St.init d remote)) := by
  unfold resourceArmAppServiceVirtualNetworkSwiftConnectionSlotRead
  simp only [St.init, hparse, St.called, St.setId, St.set]
  unfold ReadTreatsMissingAsGone ReadLookups.Gone ReadLookups.Failed ReadLookups.firstFailure
    readLookups
  repeat' split
  all_goals simp_all [errorf, ResourceData.SetId, ResourceData.Set]

theorem read_parse_error {σ : Type} (x : Externals) (client : AppServicesClient σ)
    (s : St σ) (h : (x.ParseAzureResourceID s.d.Id).2 ≠ none) :
    (∃ e, (resourceArmAppServiceVirtualNetworkSwiftConnectionSlotRead x client s).1
        = Outcome.returned (some e))
    ∧ (resourceArmAppServiceVirtualNetworkSwiftConnectionSlotRead x client s).2 = s := by
  unfold resourceArmAppServiceVirtualNetworkSwiftConnectionSlotRead
  split
  · exact ⟨⟨_, rfl⟩, rfl⟩
  · next h2 => rw [h2] at h; exact absurd rfl h
  · next h2 => rw [h2] at h; exact absurd rfl h

theorem read_issues_lookup {σ : Type} (x : Externals) (client : AppServicesClient σ)
    (d : ResourceData) (remote : σ) (id : ResourceID)
    (hparse : x.ParseAzureResourceID d.Id = (some id, none)) :
    Event.call Method.GetSlot
        (client.GetSlot id.ResourceGroup (id.path "sites") (id.path "slots") remote).1.1.Response
        (client.GetSlot id.ResourceGroup (id.path "sites") (id.path "slots") remote).1.2 ∈
      (resourceArmAppServiceVirtualNetworkSwiftConnectionSlotRead x client
        (St.init d remote)).2.trace := by
  unfold resourceArmAppServiceVirtualNetworkSwiftConnectionSlotRead
  simp only [St.init, hparse, St.called, St.setId, St.set]
  repeat' split
  all_goals simp_all

/-- C8. The Read handler treats a missing remote object as gone rather than as a failure.
Read issues its lookups exactly when `d.Id()` parses to a resource ID, and on every such run,
taking the lookups in the order `GetSlot`, `Get`, `GetSwiftVirtualNetworkConnectionSlot`: if
the first lookup that fails does so with a not-found response, or all three succeed with
non-nil properties whose subnet resource ID is nil or empty, Read sets the ID to `""` and
returns nil without setting a field; if the first failing lookup is not a not-found, or the
properties are nil, it returns an error and does not clear the ID; otherwise it sets
`subnet_id`, `app_service_id` and `slot_name` from the three responses, leaves the ID
unchanged and returns nil. -/
theorem C8_read_missing_is_gone {σ : Type} (x : Externals) (client : AppServicesClient σ)
    (d : ResourceData) (remote : σ) :
    (∀ id, x.ParseAzureResourceID d.Id = (some id, none) →
      ReadTreatsMissingAsGone x (readLookups client id remote) d
        (resourceArmAppServiceVirtualNetworkSwiftConnectionSlotRead x client
          (St.init d remote)))
    ∧ ((∃ m resp err, Event.call m resp err ∈
          (resourceArmAppServiceVirtualNetworkSwiftConnectionSlotRead x client
            (St.init d remote)).2.trace)
        ↔ ∃ id, x.ParseAzureResourceID d.Id = (some id, none)) := by
  refine ⟨fun id h => read_refines x client d remote id h, ?_, ?_⟩
  · rintro ⟨m, resp, err, hmem⟩
    rcases hp : x.ParseAzureResourceID d.Id with ⟨oid, oerr⟩
    cases oerr with
    | some e =>
      have h2 := (read_parse_error x client (St.init d remote)
        (by show (x.ParseAzureResourceID d.Id).2 ≠ none; rw [hp]; simp)).2
      rw [h2] at hmem
      exact absurd hmem (List.not_mem_nil _)
    | none =>
      cases oid with
      | some id => exact ⟨id, rfl⟩
      | none =>
        unfold resourceArmAppServiceVirtualNetworkSwiftConnectionSlotRead at hmem
        simp only [St.init, hp] at hmem
        exact absurd hmem (List.not_mem_nil _)
  · rintro ⟨id, h⟩
    exact ⟨_, _, _, read_issues_lookup x client d remote id h⟩

/-- C8 on samples, each with an ID that parses.  `GetSlot` failing with 404 and an
association with an empty subnet ID both make Read clear the ID and return nil without
setting a field; three successful lookups with a subnet ID make Read set the three fields,
keep the ID and return nil. -/
theorem C8_read_missing_is_gone_witness :
    ((resourceArmAppServiceVirtualNetworkSwiftConnectionSlotRead sampleExternals
          sampleClientSlotNotFound (St.init sampleData 0)).1 = Outcome.returned none
      ∧ (resourceArmAppServiceVirtualNetworkSwiftConnectionSlotRead sampleExternals
          sampleClientSlotNotFound (St.init sampleData 0)).2.d = sampleData.SetId ""
      ∧ Event.SetId "" ∈ (resourceArmAppServiceVirtualNetworkSwiftConnectionSlotRead
          sampleExternals sampleClientSlotNotFound (St.init sampleData 0)).2.trace
      ∧ ∀ key v, Event.Set key v ∉
          (resourceArmAppServiceVirtualNetworkSwiftConnectionSlotRead sampleExternals
            sampleClientSlotNotFound (St.init sampleData 0)).2.trace)
    ∧ ((resourceArmAppServiceVirtualNetworkSwiftConnectionSlotRead sampleExternals
          sampleClientEmptySubnet (St.init sampleData 0)).1 = Outcome.returned none
      ∧ (resourceArmAppServiceVirtualNetworkSwiftConnectionSlotRead sampleExternals
          sampleClientEmptySubnet (St.init sampleData 0)).2.d = sampleData.SetId ""
      ∧ Event.SetId "" ∈ (resourceArmAppServiceVirtualNetworkSwiftConnectionSlotRead
          sampleExternals sampleClientEmptySubnet (St.init sampleData 0)).2.trace
      ∧ ∀ key v, Event.Set key v ∉
          (resourceArmAppServiceVirtualNetworkSwiftConnectionSlotRead sampleExternals
            sampleClientEmptySubnet (St.init sampleData 0)).2.trace)
    ∧ (resourceArmAppServiceVirtualNetworkSwiftConnectionSlotRead sampleExternals sampleClient
          (St.init sampleData 0)).1 = Outcome.returned none
    ∧ (resourceArmAppServiceVirtualNetworkSwiftConnectionSlotRead sampleExternals sampleClient
          (St.init sampleData 0)).2.d.Get "slot_name" = "app" :=
  ⟨((C8_read_missing_is_gone sampleExternals sampleClientSlotNotFound sampleData 0).1
      sampleSlotID (by decide)).1 (Or.inl ⟨some ⟨404⟩, by decide, by decide⟩),
   ((C8_read_missing_is_gone sampleExternals sampleClientEmptySubnet sampleData 0).1
      sampleSlotID (by decide)).1
      (Or.inr ⟨by decide, ⟨some ""⟩, by decide, Or.inr rfl⟩),
   by decide, by decide⟩

theorem deleteLocked_outcome {σ : Type} (x : Externals) (client : AppServicesClient σ)
    (d : ResourceData) (remote : σ) (id : ResourceID) (t0 : List Event)
    (ht0 : ∀ e ∈ t0, e.isCall = false) :
    let out := deleteLocked x client id.ResourceGroup (id.path "sites") (d.Get "slot_name")
      { d := d, remote := remote, trace := t0 }
    let read := (deleteRead client id d remote).1
    let req := (deleteRequest client id d remote).1
    (AssociationAbsent read → out.1 = Outcome.returned none
        ∧ ∀ resp err, Event.call Method.DeleteSwiftVirtualNetworkSlot resp err ∉ out.2.trace)
    ∧ (DeleteRequestIssued read → req.2 ≠ none → x.ResponseWasNotFound req.1 = true →
        out.1 = Outcome.returned none
        ∧ Event.call Method.DeleteSwiftVirtualNetworkSlot req.1 req.2 ∈ out.2.trace)
    ∧ ((∃ e, out.1 = Outcome.returned (some e)) ↔
        (read.2 ≠ none
          ∨ (read.2 = none ∧ read.1.SwiftVirtualNetworkProperties = none)
          ∨ (DeleteRequestIssued read ∧ req.2 ≠ none
              ∧ x.ResponseWasNotFound req.1 = false))) := by
  unfold deleteLocked AssociationAbsent DeleteRequestIssued deleteRequest deleteRead
  simp only [St.called]
  repeat' split
  all_goals simp_all [errorf]
  refine ⟨fun resp err hm => by simpa [Event.isCall] using ht0 _ hm, by tauto, by tauto⟩

/-- C9. The delete handler succeeds on an association that is already absent.  With both IDs
parsed: when the association read back has non-nil properties whose subnet resource ID is nil
or empty, Delete returns nil and issues no `DeleteSwiftVirtualNetworkSlot`; when the delete
request is issued and fails with a not-found response, Delete returns nil.  Delete returns a
non-nil error exactly when an ID fails to parse, or the initial read fails (whatever its
response), or the read succeeds with nil properties, or the delete request is issued and
fails with a response that is not a not-found. -/
theorem C9_delete_of_absent_association {σ : Type} (x : Externals)
    (client : AppServicesClient σ) (d : ResourceData) (remote : σ) :
    (∀ id subnetID, x.ParseAzureResourceID (d.Get "app_service_id") = (some id, none) →
      x.ParseAzureResourceID (d.Get "subnet_id") = (some subnetID, none) →
      (AssociationAbsent (deleteRead client id d remote).1 →
        (resourceArmAppServiceVirtualNetworkSwiftConnectionSlotDelete x client
          (St.init d remote)).1 = Outcome.returned none
        ∧ ∀ resp err, Event.call Method.DeleteSwiftVirtualNetworkSlot resp err ∉
            (resourceArmAppServiceVirtualNetworkSwiftConnectionSlotDelete x client
              (St.init d remote)).2.trace)
      ∧ (DeleteRequestIssued (deleteRead client id d remote).1 →
          (deleteRequest client id d remote).1.2 ≠ none →
          x.ResponseWasNotFound (deleteRequest client id d remote).1.1 = true →
          (resourceArmAppServiceVirtualNetworkSwiftConnectionSlotDelete x client
            (St.init d remote)).1 = Outcome.returned none
          ∧ Event.call Method.DeleteSwiftVirtualNetworkSlot
              (deleteRequest client id d remote).1.1 (deleteRequest client id d remote).1.2 ∈
              (resourceArmAppServiceVirtualNetworkSwiftConnectionSlotDelete x client
                (St.init d remote)).2.trace))
    ∧ ((∃ e, (resourceArmAppServiceVirtualNetworkSwiftConnectionSlotDelete x client
          (St.init d remote)).1 = Outcome.returned (some e)) ↔
        (ParseFails x d
          ∨ ∃ id subnetID,
              x.ParseAzureResourceID (d.Get "app_service_id") = (some id, none)
              ∧ x.ParseAzureResourceID (d.Get "subnet_id") = (some subnetID, none)
              ∧ ((deleteRead client id d remote).1.2 ≠ none
                  ∨ ((deleteRead client id d remote).1.2 = none
                      ∧ (deleteRead client id d remote).1.1.SwiftVirtualNetworkProperties = none)
                  ∨ (DeleteRequestIssued (deleteRead client id d remote).1
                      ∧ (deleteRequest client id d remote).1.2 ≠ none
                      ∧ x.ResponseWasNotFound (deleteRequest client id d remote).1.1
                          = false)))) := by
  have hlock : ∀ sid : ResourceID, ∀ e ∈
      [Event.ByName (sid.path "virtualNetworks") x.VirtualNetworkResourceName,
       Event.ByName (sid.path "subnets") x.SubnetResourceName], e.isCall = false := by
    intro sid e he
    simp only [List.mem_cons, List.mem_singleton, List.not_mem_nil, or_false] at he
    rcases he with rfl | rfl <;> rfl
  refine ⟨fun id sid h1 h2 => ?_, ?_⟩
  · have h := deleteLocked_outcome x client d remote id _ (hlock sid)
    rw [delete_parsed_eq x client d remote id sid h1 h2]
    simp only [St.emit, List.mem_append, List.mem_singleton, reduceCtorEq, or_false]
    exact ⟨h.1, h.2.1⟩
  · by_cases hp : ∃ id subnetID,
        x.ParseAzureResourceID (d.Get "app_service_id") = (some id, none)
        ∧ x.ParseAzureResourceID (d.Get "subnet_id") = (some subnetID, none)
    · obtain ⟨id, sid, h1, h2⟩ := hp
      have h := (deleteLocked_outcome x client d remote id _ (hlock sid)).2.2
      rw [delete_parsed_eq x client d remote id sid h1 h2]
      simp only at h ⊢
      rw [h]
      constructor
      · intro h3
        exact Or.inr ⟨id, sid, h1, h2, h3⟩
      · rintro (hf | ⟨id2, sid2, h4, h5, h6⟩)
        · exact absurd ⟨id, sid, h1, h2⟩ (not_parsed_of_parseFails x d hf)
        · rw [h1] at h4
          simp only [Prod.mk.injEq, Option.some.injEq, and_true] at h4
          subst h4
          exact h6
    · have hr : (∃ e, (resourceArmAppServiceVirtualNetworkSwiftConnectionSlotDelete x client
          (St.init d remote)).1 = Outcome.returned (some e)) ↔ ParseFails x d := by
        unfold resourceArmAppServiceVirtualNetworkSwiftConnectionSlotDelete ParseFails
        simp only [St.init]
        split
        · next id e h => simp [h, errorf]
        · next oid h =>
          split
          · next sid e h2 => simp [h2, errorf]
          · next osid h2 =>
            split
            · next id sid => exact absurd ⟨id, sid, h, h2⟩ hp
            · simp [h, h2]
      rw [hr]
      constructor
      · exact Or.inl
      · rintro (hf | ⟨id2, sid2, h4, h5, _⟩)
        · exact hf
        · exact absurd ⟨id2, sid2, h4, h5⟩ hp

/-- C9 on samples: a delete request rejected with 404 still makes Delete return nil, and a
successful delete returns nil as well. -/
theorem C9_delete_of_absent_association_witness :
    (resourceArmAppServiceVirtualNetworkSwiftConnectionSlotDelete sampleExternals
        sampleClientDeleteNotFound (St.init sampleData 0)).1 = Outcome.returned none
    ∧ Event.call Method.DeleteSwiftVirtualNetworkSlot (some ⟨404⟩)
        (some ⟨"StatusCode=404: association not found"⟩) ∈
      (resourceArmAppServiceVirtualNetworkSwiftConnectionSlotDelete sampleExternals
        sampleClientDeleteNotFound (St.init sampleData 0)).2.trace :=
  ((C9_delete_of_absent_association sampleExternals sampleClientDeleteNotFound sampleData 0).1
    { ResourceGroup := "rg", Path := [("sites", "app")] }
    { ResourceGroup := "rg", Path := [("virtualNetworks", "vnet"), ("subnets", "sub")] }
    (by decide) (by decide)).2
    (by simp [DeleteRequestIssued, deleteRead, sampleClientDeleteNotFound, sampleSwift])
    (by decide) (by decide)

/-! ## Claims on `Put` and `PutThenPoll` -/

theorem put_never_polls {ρ π ι ω : Type} (c : SdkClient ρ π ι ω)
    (id : PrivateEndpointConnectionId) (input : ι) (world : ω) :
    SdkCall.PollUntilDone ∉ (Put c id input (SdkState.init world)).2.calls := by
  unfold Put
  simp only [SdkState.init, SdkState.step]
  repeat' split
  all_goals simp

/-- C6. `PutThenPoll` performs `Put` and then polls until completion: it returns nil exactly
when `Put` returned no error and `PollUntilDone` on the poller of its result returned no
error; when `Put` fails, `PollUntilDone` is never called and the returned error is the text of
the `Put` error prefixed by `"performing Put: "`; when `Put` succeeds, `PollUntilDone` is
called, and if it fails the returned error is the text of the polling error prefixed by
`"polling after Put: "`. -/
theorem C6_put_then_poll {ρ π ι ω : Type} (c : SdkClient ρ π ι ω)
    (id : PrivateEndpointConnectionId) (input : ι) (world : ω) :
    ((PutThenPoll c id input (SdkState.init world)).1 = none ↔
      (Put c id input (SdkState.init world)).1.2 = none
      ∧ (c.PollUntilDone (Put c id input (SdkState.init world)).1.1.Poller
          (Put c id input (SdkState.init world)).2.world).1 = none)
    ∧ (∀ e, (Put c id input (SdkState.init world)).1.2 = some e →
        (PutThenPoll c id input (SdkState.init world)).1
          = some ⟨"performing Put: " ++ e.Error⟩
        ∧ SdkCall.PollUntilDone ∉ (PutThenPoll c id input (SdkState.init world)).2.calls)
    ∧ ((Put c id input (SdkState.init world)).1.2 = none →
        SdkCall.PollUntilDone ∈ (PutThenPoll c id input (SdkState.init world)).2.calls
        ∧ ∀ e, (c.PollUntilDone (Put c id input (SdkState.init world)).1.1.Poller
            (Put c id input (SdkState.init world)).2.world).1 = some e →
          (PutThenPoll c id input (SdkState.init world)).1
            = some ⟨"polling after Put: " ++ e.Error⟩) := by
  have hnp := put_never_polls c id input world
  rcases h : (Put c id input (SdkState.init world)).1.2 with _ | e
  · rcases h2 : (c.PollUntilDone (Put c id input (SdkState.init world)).1.1.Poller
        (Put c id input (SdkState.init world)).2.world).1 with _ | e2
    · simp [PutThenPoll, h, h2, SdkState.step]
    · simp [PutThenPoll, h, h2, SdkState.step]
  · simp [PutThenPoll, h]
    exact hnp

/-- C6 on samples: a successful run returns nil; a failing `Marshal` is reported with the
prefix `"performing Put: "` and without polling; a failing poll is reported with the prefix
`"polling after Put: "`. -/
theorem C6_put_then_poll_witness :
    (PutThenPoll sampleSdk samplePutID "payload" (SdkState.init 0)).1 = none
    ∧ ((PutThenPoll sampleSdkMarshalFails samplePutID "payload" (SdkState.init 0)).1
          = some ⟨"performing Put: " ++ "json: unsupported value"⟩
        ∧ SdkCall.PollUntilDone ∉
            (PutThenPoll sampleSdkMarshalFails samplePutID "payload" (SdkState.init 0)).2.calls)
    ∧ (PutThenPoll sampleSdkPollFails samplePutID "payload" (SdkState.init 0)).1
          = some ⟨"polling after Put: " ++ "operation Failed"⟩ :=
  ⟨by decide,
   (C6_put_then_poll sampleSdkMarshalFails samplePutID "payload" 0).2.1
     ⟨"json: unsupported value"⟩ (by decide),
   ((C6_put_then_poll sampleSdkPollFails samplePutID "payload" 0).2.2 (by decide)).2
     ⟨"operation Failed"⟩ (by decide)⟩

/-- C10. `Put` reports the HTTP response even when the request fails and builds a poller only
after a successful request.  When `NewRequest` or `Marshal` fails, `Execute` is never called
and the zero result is returned with that error.  Otherwise, whenever `Execute` returns a
non-nil response, `result.HttpResponse` and `result.OData` are that response's `Response` and
`OData`, whether or not `Execute` also returned an error (which is then the returned error).
`PollerFromResponse` is called exactly when `NewRequest`, `Marshal` and `Execute` all returned
no error; `result.Poller` is then what it returned, and is the zero poller in every other
run. -/
theorem C10_put_reports_response {ρ π ι ω : Type} (c : SdkClient ρ π ι ω)
    (id : PrivateEndpointConnectionId) (input : ι) (world : ω) :
    ((∀ e, (putStages c id input world).newRequest.2 = some e
          ∨ ((putStages c id input world).newRequest.2 = none
              ∧ (putStages c id input world).marshal.2 = some e) →
        (Put c id input (SdkState.init world)).1
          = (PutOperationResponse.zero c.zeroPoller, some e)
        ∧ SdkCall.Execute ∉ (Put c id input (SdkState.init world)).2.calls)
    ∧ ((putStages c id input world).newRequest.2 = none →
        (putStages c id input world).marshal.2 = none →
        SdkCall.Execute ∈ (Put c id input (SdkState.init world)).2.calls
        ∧ (∀ rp, (putStages c id input world).execute.1 = some rp →
            (Put c id input (SdkState.init world)).1.1.HttpResponse = rp.Response
            ∧ (Put c id input (SdkState.init world)).1.1.OData = rp.OData)
        ∧ (∀ e, (putStages c id input world).execute.2 = some e →
            (Put c id input (SdkState.init world)).1.2 = some e))
    ∧ (SdkCall.PollerFromResponse ∈ (Put c id input (SdkState.init world)).2.calls ↔
        (putStages c id input world).newRequest.2 = none
        ∧ (putStages c id input world).marshal.2 = none
        ∧ (putStages c id input world).execute.2 = none)
    ∧ (SdkCall.PollerFromResponse ∈ (Put c id input (SdkState.init world)).2.calls →
        (Put c id input (SdkState.init world)).1.1.Poller
          = (putStages c id input world).poller.1
        ∧ (Put c id input (SdkState.init world)).1.2 = (putStages c id input world).poller.2)
    ∧ (SdkCall.PollerFromResponse ∉ (Put c id input (SdkState.init world)).2.calls →
        (Put c id input (SdkState.init world)).1.1.Poller = c.zeroPoller)) := by
  unfold Put putStages
  simp only [SdkState.init, SdkState.step]
  repeat' split
  all_goals simp_all [PutOperationResponse.zero]

/-- C10 on a sample: `Execute` fails with status 409 and a response; `Put` returns that
error together with the response and its OData, and builds no poller. -/
theorem C10_put_reports_response_witness :
    (Put sampleSdkExecuteFails samplePutID "payload" (SdkState.init 0)).1
      = ({ Poller := 0, HttpResponse := some ⟨409⟩, OData := some ⟨"conflict"⟩ },
         some ⟨"unexpected status 409"⟩)
    ∧ (Put sampleSdkExecuteFails samplePutID "payload" (SdkState.init 0)).1.1.HttpResponse
        = some ⟨409⟩
    ∧ SdkCall.PollerFromResponse ∉
        (Put sampleSdkExecuteFails samplePutID "payload" (SdkState.init 0)).2.calls :=
  ⟨by decide,
   (((C10_put_reports_response sampleSdkExecuteFails samplePutID "payload" 0).2.1
      (by decide) (by decide)).2.1 { Response := some ⟨409⟩, OData := some ⟨"conflict"⟩ }
      (by decide)).1,
   by decide⟩

/-! ## Claims on mutual exclusion -/

theorem project_cons (p t : Nat) (e : Event) (s : List (Nat × Event)) :
    project p ((t, e) :: s) = if t = p then e :: project p s else project p s := by
  unfold project
  by_cases h : t = p
  · simp [List.filter_cons, h]
  · simp [List.filter_cons, h]

theorem tagged_of_project_nil (p q : Nat) (s : List (Nat × Event))
    (htag : ∀ y ∈ s, y.1 = p ∨ y.1 = q) (hp : project p s = []) (hne : p ≠ q) :
    s = tagged q (project q s) := by
  induction s with
  | nil => rfl
  | cons y s ih =>
    obtain ⟨t, e⟩ := y
    have htag2 : ∀ y ∈ s, y.1 = p ∨ y.1 = q := fun y hy => htag y (List.mem_cons_of_mem _ hy)
    rcases htag (t, e) (List.mem_cons_self _ _) with h | h
    · simp only at h
      subst h
      rw [project_cons, if_pos rfl] at hp
      exact absurd hp (List.cons_ne_nil _ _)
    · simp only at h
      subst h
      rw [project_cons, if_neg (Ne.symm hne)] at hp
      rw [project_cons, if_pos rfl]
      simp only [tagged, List.map_cons]
      congr 1
      exact ih htag2 hp

theorem lockStep_count (reg reg2 : LockRegistry) (p : Nat) (key : LockKey) (e : Event)
    (h : lockStep reg p e = some reg2) :
    reg2.held.count (key, p) = heldAfter key (reg.held.count (key, p)) e := by
  cases e with
  | ByName name ty =>
    simp only [lockStep, LockRegistry.Acquire] at h
    split at h
    · exact absurd h (by simp)
    · simp only [Option.some.injEq] at h
      subst h
      simp only [heldAfter, List.count_cons]
      by_cases hk : ({ resourceType := ty, resourceName := name } : LockKey) = key
      · simp [hk]
      · simp [hk]
  | UnlockByName name ty =>
    simp only [lockStep, LockRegistry.Release, Option.some.injEq] at h
    subst h
    simp only [heldAfter]
    by_cases hk : ({ resourceType := ty, resourceName := name } : LockKey) = key
    · subst hk
      simp [List.count_erase_self]
    · rw [if_neg hk]
      have hne : (key, p) ≠
          (({ resourceType := ty, resourceName := name } : LockKey), p) := by
        intro hc
        exact hk (congrArg Prod.fst hc).symm
      exact List.count_erase_of_ne hne _
  | call m resp err => simp only [lockStep, Option.some.injEq] at h; subst h; rfl
  | SetId v => simp only [lockStep, Option.some.injEq] at h; subst h; rfl
  | Set k v => simp only [lockStep, Option.some.injEq] at h; subst h; rfl

theorem acquire_blocked (reg : LockRegistry) (p q : Nat) (key : LockKey)
    (hheld : 1 ≤ reg.held.count (key, p)) (hne : p ≠ q) : reg.Acquire q key = none := by
  unfold LockRegistry.Acquire
  rw [if_pos]
  rw [List.any_eq_true]
  exact ⟨(key, p), List.count_pos_iff.mp hheld, by simpa using hne⟩

theorem serial_of_holding (key : LockKey) (p q : Nat) (hne : p ≠ q) :
    ∀ (sched : List (Nat × Event)) (reg : LockRegistry) (a b : List Event),
      Interleave p q a b sched → (runSchedule reg sched).isSome = true →
      HoldsThroughout key (reg.held.count (key, p)) a → GuardedBy key b →
      sched = tagged p a ++ tagged q b := by
  intro sched
  induction sched with
  | nil =>
    intro reg a b hint _ _ _
    obtain ⟨h1, h2, _⟩ := hint
    simp only [project, List.filter_nil, List.map_nil] at h1 h2
    subst h1; subst h2
    rfl
  | cons y s ih =>
    intro reg a b hint hrun hhold hb
    obtain ⟨t, e⟩ := y
    obtain ⟨h1, h2, htag⟩ := hint
    have htag2 : ∀ y ∈ s, y.1 = p ∨ y.1 = q := fun y hy => htag y (List.mem_cons_of_mem _ hy)
    simp only [runSchedule] at hrun
    rcases htag (t, e) (List.mem_cons_self _ _) with h | h
    · -- an event of the task holding the key
      simp only at h
      subst h
      rw [project_cons, if_pos rfl] at h1
      rw [project_cons, if_neg hne] at h2
      subst h1
      obtain ⟨_, hrest⟩ := hhold
      cases hstep : lockStep reg t e with
      | none => rw [hstep] at hrun; exact absurd hrun (by simp)
      | some reg2 =>
        rw [hstep] at hrun
        rw [← lockStep_count reg reg2 t key e hstep] at hrest
        have := ih reg2 (project t s) b ⟨rfl, h2, htag2⟩ hrun hrest hb
        simp only [tagged, List.map_cons, List.cons_append]
        congr 1
    · -- an event of the other task
      simp only at h
      subst h
      rw [project_cons, if_neg (Ne.symm hne)] at h1
      rw [project_cons, if_pos rfl] at h2
      cases a with
      | nil =>
        have hs := tagged_of_project_nil p t s htag2 h1 hne
        subst h2
        simp only [tagged, List.map_nil, List.nil_append, List.map_cons]
        congr 1
      | cons a0 a =>
        obtain ⟨hpos, _⟩ := hhold
        rcases hb with hb | ⟨rest, hb, _⟩
        · rw [hb] at h2; exact absurd h2 (List.cons_ne_nil _ _)
        · rw [hb] at h2
          simp only [List.cons.injEq] at h2
          obtain ⟨he, _⟩ := h2
          subst he
          have hblock := acquire_blocked reg p t key hpos hne
          simp only [lockStep, hblock] at hrun
          exact absurd hrun (by simp)

theorem two_runs_serial (key : LockKey) (p q : Nat) (hne : p ≠ q) (a b : List Event)
    (ha : GuardedBy key a) (hb : GuardedBy key b) (sched : List (Nat × Event))
    (hint : Interleave p q a b sched) (hadm : Admissible sched) :
    sched = tagged p a ++ tagged q b ∨ sched = tagged q b ++ tagged p a := by
  cases sched with
  | nil =>
    obtain ⟨h1, h2, _⟩ := hint
    simp only [project, List.filter_nil, List.map_nil] at h1 h2
    subst h1; subst h2
    exact Or.inl rfl
  | cons y s =>
    obtain ⟨t, e⟩ := y
    obtain ⟨h1, h2, htag⟩ := hint
    have htag2 : ∀ y ∈ s, y.1 = p ∨ y.1 = q := fun y hy => htag y (List.mem_cons_of_mem _ hy)
    have htag3 : ∀ y ∈ s, y.1 = q ∨ y.1 = p := fun y hy => (htag2 y hy).symm
    unfold Admissible at hadm
    simp only [runSchedule] at hadm
    cases hstep : lockStep { held := [] } t e with
    | none => rw [hstep] at hadm; exact absurd hadm (by simp)
    | some reg2 =>
      rw [hstep] at hadm
      have hcount := lockStep_count { held := [] } reg2 t key e hstep
      rcases htag (t, e) (List.mem_cons_self _ _) with h | h
      · simp only at h
        subst h
        rw [project_cons, if_pos rfl] at h1
        rw [project_cons, if_neg hne] at h2
        rcases ha with ha | ⟨rest, ha, hhold⟩
        · rw [ha] at h1; exact absurd h1 (List.cons_ne_nil _ _)
        · rw [ha] at h1
          simp only [List.cons.injEq] at h1
          obtain ⟨he, hrest⟩ := h1
          subst he
          have hc1 : reg2.held.count (key, t) = 1 := by
            rw [hcount]; simp [heldAfter]
          rw [← hc1] at hhold
          have := serial_of_holding key t q hne s reg2 rest b ⟨hrest, h2, htag2⟩ hadm hhold hb
          left
          rw [ha, this]
          simp [tagged]
      · simp only at h
        subst h
        rw [project_cons, if_neg (Ne.symm hne)] at h1
        rw [project_cons, if_pos rfl] at h2
        rcases hb with hb | ⟨rest, hb, hhold⟩
        · rw [hb] at h2; exact absurd h2 (List.cons_ne_nil _ _)
        · rw [hb] at h2
          simp only [List.cons.injEq] at h2
          obtain ⟨he, hrest⟩ := h2
          subst he
          have hc1 : reg2.held.count (key, t) = 1 := by
            rw [hcount]; simp [heldAfter]
          rw [← hc1] at hhold
          have := serial_of_holding key t p (Ne.symm hne) s reg2 rest a ⟨hrest, h1, htag3⟩ hadm
            hhold ha
          right
          rw [hb, this]
          simp [tagged]

theorem holdsThroughout_lockFree (key : LockKey) (n : Nat) (hn : 1 ≤ n) (mid rest : List Event)
    (hmid : ∀ e ∈ mid, e.isLockOp = false) (hrest : HoldsThroughout key n rest) :
    HoldsThroughout key n (mid ++ rest) := by
  induction mid with
  | nil => exact hrest
  | cons e mid ih =>
    have he := hmid e (List.mem_cons_self _ _)
    have hstep : heldAfter key n e = n := by
      cases e <;> first | rfl | exact Bool.noConfusion he
    refine ⟨hn, ?_⟩
    rw [hstep]
    exact ih (fun e2 h2 => hmid e2 (List.mem_cons_of_mem _ h2))

theorem bracketed_guarded (x : Externals) (sid : ResourceID) (t : List Event)
    (h : Bracketed x sid t) : GuardedBy (vnetKey x sid) t := by
  obtain ⟨mid, hmid, rfl⟩ := h
  refine Or.inr ⟨_, rfl, Nat.le_refl 1, ?_⟩
  have hsub : Event.ByName (sid.path "subnets") x.SubnetResourceName
      = Event.ByName (subnetKey x sid).resourceName (subnetKey x sid).resourceType := rfl
  by_cases hk : subnetKey x sid = vnetKey x sid
  · have h2 : heldAfter (vnetKey x sid) 1
        (Event.ByName (sid.path "subnets") x.SubnetResourceName) = 2 := by
      rw [hsub]
      simp [heldAfter, hk]
    rw [h2]
    apply holdsThroughout_lockFree _ 2 (by omega) mid _ hmid
    have h3 : heldAfter (vnetKey x sid) 2
        (Event.UnlockByName (sid.path "subnets") x.SubnetResourceName) = 1 := by
      show (if subnetKey x sid = vnetKey x sid then 2 - 1 else 2) = 1
      rw [if_pos hk]
    refine ⟨by omega, ?_⟩
    rw [h3]
    exact ⟨Nat.le_refl 1, trivial⟩
  · have h2 : heldAfter (vnetKey x sid) 1
        (Event.ByName (sid.path "subnets") x.SubnetResourceName) = 1 := by
      show (if subnetKey x sid = vnetKey x sid then 1 + 1 else 1) = 1
      rw [if_neg hk]
    rw [h2]
    apply holdsThroughout_lockFree _ 1 (by omega) mid _ hmid
    have h3 : heldAfter (vnetKey x sid) 1
        (Event.UnlockByName (sid.path "subnets") x.SubnetResourceName) = 1 := by
      show (if subnetKey x sid = vnetKey x sid then 1 - 1 else 1) = 1
      rw [if_neg hk]
    refine ⟨Nat.le_refl 1, ?_⟩
    rw [h3]
    exact ⟨Nat.le_refl 1, trivial⟩

theorem one_holder_step (reg reg2 : LockRegistry) (task : Nat) (e : Event)
    (hinv : ∀ key a b, (key, a) ∈ reg.held → (key, b) ∈ reg.held → a = b)
    (h : lockStep reg task e = some reg2) :
    ∀ key a b, (key, a) ∈ reg2.held → (key, b) ∈ reg2.held → a = b := by
  cases e with
  | ByName name ty =>
    simp only [lockStep, LockRegistry.Acquire] at h
    split at h
    · exact absurd h (by simp)
    · next hany =>
      simp only [Option.some.injEq] at h
      subst h
      have hfree : ∀ c, ({ resourceType := ty, resourceName := name }, c) ∈ reg.held →
          c = task := by
        intro c hc
        by_contra hcne
        exact hany (List.any_eq_true.mpr ⟨_, hc, by simpa using hcne⟩)
      intro key a b ha hb
      simp only [List.mem_cons, Prod.mk.injEq] at ha hb
      rcases ha with ⟨rfl, rfl⟩ | ha <;> rcases hb with ⟨hk, rfl⟩ | hb
      · rfl
      · exact (hfree b hb).symm
      · subst hk; exact hfree a ha
      · exact hinv key a b ha hb
  | UnlockByName name ty =>
    simp only [lockStep, LockRegistry.Release, Option.some.injEq] at h
    subst h
    intro key a b ha hb
    exact hinv key a b (List.mem_of_mem_erase ha) (List.mem_of_mem_erase hb)
  | call m resp err => simp only [lockStep, Option.some.injEq] at h; subst h; exact hinv
  | SetId v => simp only [lockStep, Option.some.injEq] at h; subst h; exact hinv
  | Set k v => simp only [lockStep, Option.some.injEq] at h; subst h; exact hinv

theorem one_holder (sched : List (Nat × Event)) :
    ∀ (reg reg2 : LockRegistry),
      (∀ key a b, (key, a) ∈ reg.held → (key, b) ∈ reg.held → a = b) →
      runSchedule reg sched = some reg2 →
      ∀ key a b, (key, a) ∈ reg2.held → (key, b) ∈ reg2.held → a = b := by
  induction sched with
  | nil =>
    intro reg reg2 hinv h
    simp only [runSchedule, Option.some.injEq] at h
    subst h
    exact hinv
  | cons y s ih =>
    intro reg reg2 hinv h
    obtain ⟨t, e⟩ := y
    simp only [runSchedule] at h
    cases hstep : lockStep reg t e with
    | none => rw [hstep] at h; exact absurd h (by simp)
    | some reg3 =>
      rw [hstep] at h
      exact ih reg3 reg2 (one_holder_step reg reg3 t e hinv hstep) h

theorem handler_trace_guarded {σ : Type} (x : Externals) (client : AppServicesClient σ)
    (d : ResourceData) (remote : σ) (t : List Event) (sid : ResourceID)
    (hrun : t = (resourceArmAppServiceVirtualNetworkSwiftConnectionSlotCreateUpdate x client
          (St.init d remote)).2.trace
        ∨ t = (resourceArmAppServiceVirtualNetworkSwiftConnectionSlotDelete x client
          (St.init d remote)).2.trace)
    (hsid : x.ParseAzureResourceID (d.Get "subnet_id") = (some sid, none)) :
    GuardedBy (vnetKey x sid) t := by
  rcases hrun with rfl | rfl
  · rcases createUpdate_trace_cases x client d remote with ⟨h, _⟩ | ⟨id, sid2, _, h2, h⟩
    · exact Or.inl h
    · rw [hsid] at h2
      simp only [Prod.mk.injEq, Option.some.injEq, and_true] at h2
      subst h2
      exact bracketed_guarded x sid _ h
  · rcases delete_trace_cases x client d remote with ⟨h, _⟩ | ⟨id, sid2, _, h2, h⟩
    · exact Or.inl h
    · rw [hsid] at h2
      simp only [Prod.mk.injEq, Option.some.injEq, and_true] at h2
      subst h2
      exact bracketed_guarded x sid _ h

/-- C5.  Over the lock registry of the spec (a task may acquire a key only while no other task
holds it): in every schedule of any number of tasks that the registry admits, a key is held by
at most one task at a time; and two concurrent invocations of the create/update or delete
handler whose `subnet_id` names the same virtual network never interleave their critical
sections: every admissible schedule that interleaves the two runs is one of the two serial
orders, the whole of one run followed by the whole of the other. -/
theorem C5_same_network_runs_are_serial :
    (∀ (sched : List (Nat × Event)) (reg : LockRegistry),
      runSchedule { held := [] } sched = some reg →
      ∀ key a b, (key, a) ∈ reg.held → (key, b) ∈ reg.held → a = b)
    ∧ (∀ (σ1 σ2 : Type) (x : Externals) (client1 : AppServicesClient σ1)
        (client2 : AppServicesClient σ2) (d1 d2 : ResourceData) (remote1 : σ1) (remote2 : σ2)
        (t1 t2 : List Event) (sid1 sid2 : ResourceID) (p q : Nat)
        (sched : List (Nat × Event)),
      (t1 = (resourceArmAppServiceVirtualNetworkSwiftConnectionSlotCreateUpdate x client1
            (St.init d1 remote1)).2.trace
        ∨ t1 = (resourceArmAppServiceVirtualNetworkSwiftConnectionSlotDelete x client1
            (St.init d1 remote1)).2.trace) →
      (t2 = (resourceArmAppServiceVirtualNetworkSwiftConnectionSlotCreateUpdate x client2
            (St.init d2 remote2)).2.trace
        ∨ t2 = (resourceArmAppServiceVirtualNetworkSwiftConnectionSlotDelete x client2
            (St.init d2 remote2)).2.trace) →
      x.ParseAzureResourceID (d1.Get "subnet_id") = (some sid1, none) →
      x.ParseAzureResourceID (d2.Get "subnet_id") = (some sid2, none) →
      sid1.path "virtualNetworks" = sid2.path "virtualNetworks" →
      p ≠ q → Interleave p q t1 t2 sched → Admissible sched →
      sched = tagged p t1 ++ tagged q t2 ∨ sched = tagged q t2 ++ tagged p t1) := by
  refine ⟨fun sched reg h => one_holder sched _ reg (by intro key a b ha; simp at ha) h, ?_⟩
  intro σ1 σ2 x client1 client2 d1 d2 remote1 remote2 t1 t2 sid1 sid2 p q sched hrun1 hrun2
    hsid1 hsid2 hsame hne hint hadm
  have g1 := handler_trace_guarded x client1 d1 remote1 t1 sid1 hrun1 hsid1
  have g2 := handler_trace_guarded x client2 d2 remote2 t2 sid2 hrun2 hsid2
  have hkey : vnetKey x sid2 = vnetKey x sid1 := by
    simp only [vnetKey, hsame]
  rw [hkey] at g2
  exact two_runs_serial (vnetKey x sid1) p q hne t1 t2 g1 g2 sched hint hadm

/-- C5 on samples: two delete runs on the same virtual network.  The schedule that runs task 1
to its end and then task 0 is admissible, and it is one of the two serial orders; a schedule
in which task 1 takes the virtual network lock while task 0 holds it is not admissible. -/
theorem C5_same_network_runs_are_serial_witness :
    Admissible sampleSerialSchedule
    ∧ (sampleSerialSchedule
          = tagged 0 (resourceArmAppServiceVirtualNetworkSwiftConnectionSlotDelete
              sampleExternals sampleClient (St.init sampleData 0)).2.trace
            ++ tagged 1 (resourceArmAppServiceVirtualNetworkSwiftConnectionSlotDelete
              sampleExternals sampleClientDeleteNotFound (St.init sampleData 0)).2.trace
        ∨ sampleSerialSchedule
          = tagged 1 (resourceArmAppServiceVirtualNetworkSwiftConnectionSlotDelete
              sampleExternals sampleClientDeleteNotFound (St.init sampleData 0)).2.trace
            ++ tagged 0 (resourceArmAppServiceVirtualNetworkSwiftConnectionSlotDelete
              sampleExternals sampleClient (St.init sampleData 0)).2.trace)
    ∧ ¬ Admissible sampleOverlappingSchedule :=
  ⟨by unfold Admissible; decide,
   C5_same_network_runs_are_serial.2 Nat Nat sampleExternals sampleClient
     sampleClientDeleteNotFound sampleData sampleData 0 0 _ _ sampleSubnetID sampleSubnetID 0 1
     sampleSerialSchedule (Or.inr rfl) (Or.inr rfl) (by decide) (by decide) rfl (by decide)
     (by unfold Interleave; decide) (by unfold Admissible; decide),
   by unfold Admissible; decide⟩

end Azurerm
